import Mathlib

/-!
Verification development for the night-walk 3D physics core.

The Python sources under engine/servers/physics, engine/scene/three_d and
engine/math are shallowly embedded here.  Scalars are exact rationals; the
floating-point square root is modelled by ratSqrt, which is exact on
perfect-square rationals (every input at which the concrete theorems below
evaluate a square root).  Python exceptions are modelled by the PyResult
type; dictionaries with a fixed key set are modelled by records, and
dict.get with a default is modelled by Option.getD.
-/

set_option linter.unusedVariables false

namespace NightWalk

/-- Largest natural k with k * k ≤ n (kernel-reducible integer square root). -/
def natSqrtFloor (n : Nat) : Nat :=
  ((List.range (n + 1)).filter fun k => k * k ≤ n).getLastD 0

/-- Model of the floating-point square root over exact rationals: integer
square root of the numerator over integer square root of the denominator.
Exact on perfect-square rationals in lowest terms; nonnegative everywhere.
Negative inputs (never produced by the embedded code, which only takes
square roots of sums of squares) map to 0. -/
def ratSqrt (q : ℚ) : ℚ :=
  (natSqrtFloor q.num.toNat : ℚ) / (natSqrtFloor q.den : ℚ)

/-- engine.math.utils.EPSILON = 0.00001. -/
def EPSILON : ℚ := 1 / 100000

/-- Python exceptions that the embedded code can raise. -/
inductive PyExc where
  | typeError
  | keyError
  | zeroDivisionError
  | indexError
  | nameError
deriving DecidableEq, Repr

/-- Result of running a piece of Python code: a value, or a raised exception. -/
inductive PyResult (α : Type) where
  | ok (val : α)
  | error (exc : PyExc)
deriving DecidableEq, Repr

/-- Vector3 (engine/math/datatypes/vector3.py) with exact rational components. -/
structure Vector3 where
  x : ℚ
  y : ℚ
  z : ℚ
deriving DecidableEq, Repr

def Vector3.zero : Vector3 := ⟨0, 0, 0⟩

def Vector3.add (a b : Vector3) : Vector3 := ⟨a.x + b.x, a.y + b.y, a.z + b.z⟩

def Vector3.sub (a b : Vector3) : Vector3 := ⟨a.x - b.x, a.y - b.y, a.z - b.z⟩

def Vector3.negV (a : Vector3) : Vector3 := ⟨-a.x, -a.y, -a.z⟩

/-- Vector3.__mul__ with a float argument. -/
def Vector3.mulQ (a : Vector3) (s : ℚ) : Vector3 := ⟨a.x * s, a.y * s, a.z * s⟩

/-- Vector3.__truediv__ with a float argument. -/
def Vector3.divQ (a : Vector3) (s : ℚ) : Vector3 := ⟨a.x / s, a.y / s, a.z / s⟩

instance : Add Vector3 := ⟨Vector3.add⟩

instance : Sub Vector3 := ⟨Vector3.sub⟩

instance : Neg Vector3 := ⟨Vector3.negV⟩

instance : HMul Vector3 ℚ Vector3 := ⟨Vector3.mulQ⟩

instance : HDiv Vector3 ℚ Vector3 := ⟨Vector3.divQ⟩

def Vector3.dot (a b : Vector3) : ℚ := a.x * b.x + a.y * b.y + a.z * b.z

def Vector3.cross (a b : Vector3) : Vector3 :=
  ⟨a.y * b.z - a.z * b.y, a.z * b.x - a.x * b.z, a.x * b.y - a.y * b.x⟩

def Vector3.length_squared (a : Vector3) : ℚ := a.dot a

def Vector3.length (a : Vector3) : ℚ := ratSqrt a.length_squared

/-- Vector3.normalized: returns the zero vector when the length is zero. -/
def Vector3.normalized (a : Vector3) : Vector3 :=
  if a.length = 0 then ⟨0, 0, 0⟩ else a.divQ a.length

/-- Basis (engine/math/datatypes/basis.py): the three column vectors of the
3x3 matrix, exactly the basis.x / basis.y / basis.z properties. -/
structure Basis where
  x : Vector3
  y : Vector3
  z : Vector3
deriving DecidableEq, Repr

def Basis.identity : Basis := ⟨⟨1, 0, 0⟩, ⟨0, 1, 0⟩, ⟨0, 0, 1⟩⟩

/-- Basis.xform: matrix times vector, i.e. the column combination m @ v. -/
def Basis.xform (b : Basis) (v : Vector3) : Vector3 :=
  b.x * v.x + b.y * v.y + b.z * v.z

/-- Basis.__mul__ with a Basis argument: matrix product (columns transformed). -/
def Basis.mulB (a b : Basis) : Basis :=
  ⟨a.xform b.x, a.xform b.y, a.xform b.z⟩

/-- Transform3D (engine/math/datatypes/transform_3d.py). -/
structure Transform3D where
  basis : Basis
  origin : Vector3
deriving DecidableEq, Repr

def Transform3D.identityT : Transform3D := ⟨Basis.identity, ⟨0, 0, 0⟩⟩

/-- Transform3D.xform: basis * v + origin. -/
def Transform3D.xform (t : Transform3D) (v : Vector3) : Vector3 :=
  t.basis.xform v + t.origin

/-- Transform3D.translated. -/
def Transform3D.translated (t : Transform3D) (offset : Vector3) : Transform3D :=
  ⟨t.basis, t.origin + offset⟩

/-- Transform3D.__mul__ with a Transform3D argument (composition). -/
def Transform3D.mulT (a b : Transform3D) : Transform3D :=
  ⟨a.basis.mulB b.basis, a.basis.xform b.origin + a.origin⟩

instance : HMul Transform3D Transform3D Transform3D := ⟨Transform3D.mulT⟩

/-- AABB (engine/math/datatypes/aabb.py): position is the minimum corner. -/
structure AABB where
  position : Vector3
  size : Vector3
deriving DecidableEq, Repr

/-- AABB.end property. -/
def AABB.endp (a : AABB) : Vector3 := a.position + a.size

/-- AABB.intersects (strict overlap on every axis). -/
def AABB.intersects (a other : AABB) : Bool :=
  !(decide (a.endp.x ≤ other.position.x) || decide (a.position.x ≥ other.endp.x) ||
    decide (a.endp.y ≤ other.position.y) || decide (a.position.y ≥ other.endp.y) ||
    decide (a.endp.z ≤ other.position.z) || decide (a.position.z ≥ other.endp.z))

/-- Shape type tags of PhysicsServer3DEnums.  The Python source assigns each
one a distinct enum.auto() sentinel; only identity comparisons are performed
on them, so an inductive tag is an exact model. -/
inductive ShapeType where
  | worldBoundary
  | separationRay
  | sphere
  | box
  | plane
  | capsule
  | cylinder
  | convexPolygon
  | concavePolygon
  | heightmap
  | custom
deriving DecidableEq, Repr

/-- Body mode tags of PhysicsServer3DEnums. -/
inductive BodyMode where
  | staticMode
  | kinematic
  | rigid
  | rigidLinear
deriving DecidableEq, Repr

/-- Shape parameter bag: the Python side passes a dict and reads each key
with dict.get and a per-key default.  A missing key is a none field. -/
structure ShapeParams where
  radius : Option ℚ := none
  height : Option ℚ := none
  half_extents : Option Vector3 := none
  normal : Option Vector3 := none
  d : Option ℚ := none
deriving DecidableEq, Repr

/-- data.get("radius", 0.5). -/
def ShapeParams.getRadius (p : ShapeParams) : ℚ := p.radius.getD (1 / 2)

/-- data.get("height", 2.0). -/
def ShapeParams.getHeight (p : ShapeParams) : ℚ := p.height.getD 2

/-- data.get("half_extents", Vector3(0.5, 0.5, 0.5)). -/
def ShapeParams.getHalfExtents (p : ShapeParams) : Vector3 :=
  p.half_extents.getD ⟨1 / 2, 1 / 2, 1 / 2⟩

/-- data.get("normal", Vector3(0, 1, 0)). -/
def ShapeParams.getNormal (p : ShapeParams) : Vector3 := p.normal.getD ⟨0, 1, 0⟩

/-- data.get("d", 0.0). -/
def ShapeParams.getDOffset (p : ShapeParams) : ℚ := p.d.getD 0

/-- CollisionResult (engine/servers/physics/solver/result.py). -/
structure CollisionResult where
  collided : Bool := false
  normal : Vector3 := ⟨0, 0, 0⟩
  point : Vector3 := ⟨0, 0, 0⟩
  depth : ℚ := 0
  point_a : Vector3 := ⟨0, 0, 0⟩
  point_b : Vector3 := ⟨0, 0, 0⟩
deriving DecidableEq, Repr

/-- SupportPoint (engine/servers/physics/solver/result.py). -/
structure SupportPoint where
  minkowski : Vector3
  point_a : Vector3
  point_b : Vector3
deriving DecidableEq, Repr

def spDefault : SupportPoint := ⟨⟨0, 0, 0⟩, ⟨0, 0, 0⟩, ⟨0, 0, 0⟩⟩

/-- clamp of engine.math.utils applied as max(0.0, min(1.0, v)). -/
def clamp01 (v : ℚ) : ℚ := max 0 (min 1 v)

/-- closest_point_segment_segment (engine/math/geometry.py).  In the branch
with a > EPSILON and e ≤ EPSILON the final line t = (b * s + f) / e reads
the local b, which was only assigned in the other branch: Python raises
NameError there.  Returns (s, t, c1, c2) otherwise. -/
def closest_point_segment_segment (p1 q1 p2 q2 : Vector3) :
    PyResult (ℚ × ℚ × Vector3 × Vector3) :=
  let d1 := q1 - p1
  let d2 := q2 - p2
  let r := p1 - p2
  let a := d1.dot d1
  let e := d2.dot d2
  let f := d2.dot r
  if a ≤ EPSILON ∧ e ≤ EPSILON then .ok (0, 0, p1, p2)
  else if a ≤ EPSILON then
    let s : ℚ := 0
    let t := clamp01 (f / e)
    .ok (s, t, p1 + d1 * s, p2 + d2 * t)
  else
    let c := d1.dot r
    if e ≤ EPSILON then
      .error .nameError
    else
      let b := d1.dot d2
      let denom := a * e - b * b
      let s := if denom ≠ 0 then clamp01 ((b * f - c * e) / denom) else 0
      let t := (b * s + f) / e
      let st : ℚ × ℚ :=
        if t < 0 then (clamp01 (-c / a), 0)
        else if t > 1 then (clamp01 ((b - c) / a), 1)
        else (s, t)
      .ok (st.1, st.2, p1 + d1 * st.1, p2 + d2 * st.2)

/-- closest_point_on_segment (engine/math/geometry.py).  The parameter is
divided by ab.dot(ab) with no guard; a degenerate segment raises
ZeroDivisionError. -/
def closest_point_on_segment (point seg_start seg_end : Vector3) :
    PyResult Vector3 :=
  let ab := seg_end - seg_start
  if ab.dot ab = 0 then .error .zeroDivisionError
  else
    let t := clamp01 ((point - seg_start).dot ab / ab.dot ab)
    .ok (seg_start + ab * t)

/-- Body of the sampling loop of closest_point_segment_to_box: carries the
best (distance squared, point) so far; none models the initial float(inf). -/
def segment_box_scan (p q : Vector3) (box_transform : Transform3D)
    (half_extents : Vector3) :
    List Nat → Option (ℚ × Vector3) → Option (ℚ × Vector3)
  | [], best => best
  | i :: rest, best =>
    let t : ℚ := (i : ℚ) / 16
    let sample := p + (q - p) * t
    let delta := sample - box_transform.origin
    let lcl : Vector3 := ⟨delta.dot box_transform.basis.x,
      delta.dot box_transform.basis.y, delta.dot box_transform.basis.z⟩
    let clamped : Vector3 :=
      ⟨max (-half_extents.x) (min half_extents.x lcl.x),
       max (-half_extents.y) (min half_extents.y lcl.y),
       max (-half_extents.z) (min half_extents.z lcl.z)⟩
    let clamped_world := box_transform.origin +
      (box_transform.basis.x * clamped.x + box_transform.basis.y * clamped.y +
        box_transform.basis.z * clamped.z)
    let dist_sq := (sample - clamped_world).length_squared
    let better : Bool :=
      match best with
      | none => true
      | some (bd, _) => decide (dist_sq < bd)
    segment_box_scan p q box_transform half_extents rest
      (if better then some (dist_sq, sample) else best)

/-- closest_point_segment_to_box (engine/math/geometry.py): 16 uniform
samples along the segment (17 loop iterations). -/
def closest_point_segment_to_box (p q : Vector3) (box_transform : Transform3D)
    (half_extents : Vector3) : Vector3 :=
  match segment_box_scan p q box_transform half_extents (List.range 17) none with
  | some (_, pt) => pt
  | none => p

/-- get_perpendicular (engine/math/geometry.py). -/
def get_perpendicular (v : Vector3) : Vector3 :=
  let abs_x := |v.x|
  let abs_y := |v.y|
  let abs_z := |v.z|
  if abs_x < abs_y ∧ abs_x < abs_z then (⟨0, -v.z, v.y⟩ : Vector3).normalized
  else if abs_y < abs_z then (⟨-v.z, 0, v.x⟩ : Vector3).normalized
  else (⟨-v.y, v.x, 0⟩ : Vector3).normalized

/-- distance_point_to_plane (engine/math/geometry.py): signed distance. -/
def distance_point_to_plane (point plane_normal : Vector3) (plane_d : ℚ) : ℚ :=
  point.dot plane_normal + plane_d

/-- get_support_point (engine/servers/physics/solver/primitives.py): support
point of a single shape in a world-space direction. -/
def get_support_point (direction : Vector3) (shape_type : ShapeType)
    (transform : Transform3D) (data : ShapeParams) : Vector3 :=
  let local_dir : Vector3 := ⟨direction.dot transform.basis.x,
    direction.dot transform.basis.y, direction.dot transform.basis.z⟩
  let local_support : Vector3 :=
    match shape_type with
    | .sphere =>
      let radius := data.getRadius
      let len := local_dir.length
      if len > EPSILON then local_dir.divQ len * radius else ⟨0, 0, 0⟩
    | .box =>
      let he := data.getHalfExtents
      ⟨if local_dir.x > 0 then he.x else -he.x,
       if local_dir.y > 0 then he.y else -he.y,
       if local_dir.z > 0 then he.z else -he.z⟩
    | .capsule =>
      let radius := data.getRadius
      let height := data.getHeight
      let half_height := max 0 ((height - 2 * radius) * (1 / 2))
      let axis_point : Vector3 :=
        if local_dir.y > 0 then ⟨0, half_height, 0⟩ else ⟨0, -half_height, 0⟩
      let radial_dir : Vector3 := ⟨local_dir.x, 0, local_dir.z⟩
      let radial_len := radial_dir.length
      let radial_dir :=
        if radial_len > EPSILON then radial_dir.divQ radial_len * radius
        else radial_dir
      axis_point + radial_dir
    | .cylinder =>
      let radius := data.getRadius
      let height := data.getHeight
      let half_height := height * (1 / 2)
      let axis_point : Vector3 :=
        if local_dir.y > 0 then ⟨0, half_height, 0⟩ else ⟨0, -half_height, 0⟩
      let radial_dir : Vector3 := ⟨local_dir.x, 0, local_dir.z⟩
      let radial_len := radial_dir.length
      let radial_dir :=
        if radial_len > EPSILON then radial_dir.divQ radial_len * radius
        else radial_dir
      axis_point + radial_dir
    | _ => ⟨0, 0, 0⟩
  transform.origin + (transform.basis.x * local_support.x +
    transform.basis.y * local_support.y + transform.basis.z * local_support.z)

/-- support (engine/servers/physics/solver/primitives.py): support point in
the Minkowski difference A - B. -/
def support (direction : Vector3) (sA : ShapeType) (tA : Transform3D)
    (dA : ShapeParams) (sB : ShapeType) (tB : Transform3D) (dB : ShapeParams) :
    SupportPoint :=
  let point_a := get_support_point direction sA tA dA
  let point_b := get_support_point (-direction) sB tB dB
  ⟨point_a - point_b, point_a, point_b⟩

/-- capsule_vs_capsule (engine/servers/physics/solver/capsule.py). -/
def capsule_vs_capsule (tA : Transform3D) (dA : ShapeParams)
    (tB : Transform3D) (dB : ShapeParams) : PyResult (Option CollisionResult) :=
  let radius_A := dA.getRadius
  let height_A := dA.getHeight
  let radius_B := dB.getRadius
  let height_B := dB.getHeight
  let hh_A := max 0 ((height_A - 2 * radius_A) * (1 / 2))
  let hh_B := max 0 ((height_B - 2 * radius_B) * (1 / 2))
  let axis_A := tA.basis.y
  let axis_B := tB.basis.y
  let p1 := tA.origin - axis_A * hh_A
  let q1 := tA.origin + axis_A * hh_A
  let p2 := tB.origin - axis_B * hh_B
  let q2 := tB.origin + axis_B * hh_B
  match closest_point_segment_segment p1 q1 p2 q2 with
  | .error e => .error e
  | .ok (_, _, c1, c2) =>
    let delta := c1 - c2
    let distance_sq := delta.length_squared
    let radius_sum := radius_A + radius_B
    if distance_sq ≥ radius_sum * radius_sum then .ok none
    else
      let distance := ratSqrt distance_sq
      let nd : Vector3 × ℚ :=
        if distance < EPSILON then
          let n0 := axis_A.cross axis_B
          if n0.length_squared < EPSILON then (get_perpendicular axis_A, radius_sum)
          else (n0.normalized, radius_sum)
        else (delta.divQ distance, radius_sum - distance)
      .ok (some { collided := true, normal := nd.1, depth := nd.2,
                  point := (c1 + c2) * ((1 : ℚ) / 2),
                  point_a := c1 - nd.1 * radius_A,
                  point_b := c2 + nd.1 * radius_B })

/-- capsule_vs_sphere (engine/servers/physics/solver/capsule.py). -/
def capsule_vs_sphere (t_capsule : Transform3D) (d_capsule : ShapeParams)
    (t_sphere : Transform3D) (d_sphere : ShapeParams) :
    PyResult (Option CollisionResult) :=
  let radius_capsule := d_capsule.getRadius
  let height_capsule := d_capsule.getHeight
  let radius_sphere := d_sphere.getRadius
  let half_height := max 0 ((height_capsule - 2 * radius_capsule) * (1 / 2))
  let axis := t_capsule.basis.y
  let p1 := t_capsule.origin - axis * half_height
  let p2 := t_capsule.origin + axis * half_height
  let sphere_center := t_sphere.origin
  match closest_point_on_segment sphere_center p1 p2 with
  | .error e => .error e
  | .ok closest =>
    let delta := sphere_center - closest
    let distance_sq := delta.length_squared
    let radius_sum := radius_capsule + radius_sphere
    if distance_sq ≥ radius_sum * radius_sum then .ok none
    else
      let distance := ratSqrt distance_sq
      let nd : Vector3 × ℚ :=
        if distance < EPSILON then (get_perpendicular axis, radius_sum)
        else (delta.divQ distance, radius_sum - distance)
      .ok (some { collided := true, normal := nd.1, depth := nd.2,
                  point := closest,
                  point_a := closest - nd.1 * radius_capsule,
                  point_b := sphere_center - nd.1 * radius_sphere })

/-- capsule_vs_box (engine/servers/physics/solver/capsule.py). -/
def capsule_vs_box (t_capsule : Transform3D) (d_capsule : ShapeParams)
    (t_box : Transform3D) (d_box : ShapeParams) :
    PyResult (Option CollisionResult) :=
  let radius := d_capsule.getRadius
  let height := d_capsule.getHeight
  let half_extents := d_box.getHalfExtents
  let half_height := max 0 ((height - 2 * radius) * (1 / 2))
  let axis := t_capsule.basis.y
  let p1 := t_capsule.origin - axis * half_height
  let p2 := t_capsule.origin + axis * half_height
  let closest_on_segment := closest_point_segment_to_box p1 p2 t_box half_extents
  let delta_to_box := closest_on_segment - t_box.origin
  let local_point : Vector3 := ⟨delta_to_box.dot t_box.basis.x,
    delta_to_box.dot t_box.basis.y, delta_to_box.dot t_box.basis.z⟩
  let clamped : Vector3 :=
    ⟨max (-half_extents.x) (min half_extents.x local_point.x),
     max (-half_extents.y) (min half_extents.y local_point.y),
     max (-half_extents.z) (min half_extents.z local_point.z)⟩
  let closest_on_box := t_box.origin + (t_box.basis.x * clamped.x +
    t_box.basis.y * clamped.y + t_box.basis.z * clamped.z)
  let delta := closest_on_segment - closest_on_box
  let distance_sq := delta.length_squared
  if distance_sq ≥ radius * radius then .ok none
  else
    let distance := ratSqrt distance_sq
    let is_inside : Bool :=
      decide (|local_point.x| ≤ half_extents.x) &&
      decide (|local_point.y| ≤ half_extents.y) &&
      decide (|local_point.z| ≤ half_extents.z)
    let nd : Vector3 × ℚ :=
      if is_inside then
        let dx := half_extents.x - |local_point.x|
        let dy := half_extents.y - |local_point.y|
        let dz := half_extents.z - |local_point.z|
        if dx < dy ∧ dx < dz then
          let sign : ℚ := if local_point.x > 0 then 1 else -1
          (t_box.basis.x * sign, radius + dx)
        else if dy < dz then
          let sign : ℚ := if local_point.y > 0 then 1 else -1
          (t_box.basis.y * sign, radius + dy)
        else
          let sign : ℚ := if local_point.z > 0 then 1 else -1
          (t_box.basis.z * sign, radius + dz)
      else
        if distance < EPSILON then ((⟨1, 0, 0⟩ : Vector3), radius)
        else (delta.divQ distance, radius - distance)
    .ok (some { collided := true, normal := nd.1, depth := nd.2,
                point := closest_on_box,
                point_a := closest_on_segment - nd.1 * radius,
                point_b := closest_on_box })

/-- capsule_vs_plane (engine/servers/physics/solver/capsule.py). -/
def capsule_vs_plane (t_capsule : Transform3D) (d_capsule : ShapeParams)
    (t_plane : Transform3D) (d_plane : ShapeParams) :
    PyResult (Option CollisionResult) :=
  let radius := d_capsule.getRadius
  let height := d_capsule.getHeight
  let plane_normal_local := d_plane.getNormal
  let plane_d := d_plane.getDOffset
  let plane_normal_world := (t_plane.basis.x * plane_normal_local.x +
    t_plane.basis.y * plane_normal_local.y +
    t_plane.basis.z * plane_normal_local.z).normalized
  let plane_d_world := plane_d - plane_normal_world.dot t_plane.origin
  let half_height := max 0 ((height - 2 * radius) * (1 / 2))
  let axis := t_capsule.basis.y
  let p1 := t_capsule.origin - axis * half_height
  let p2 := t_capsule.origin + axis * half_height
  let dist1 := distance_point_to_plane p1 plane_normal_world plane_d_world
  let dist2 := distance_point_to_plane p2 plane_normal_world plane_d_world
  let cp : Vector3 × ℚ := if dist1 < dist2 then (p1, dist1) else (p2, dist2)
  if cp.2 > radius then .ok none
  else
    .ok (some { collided := true, normal := plane_normal_world,
                depth := radius - cp.2,
                point := cp.1 - plane_normal_world * cp.2,
                point_a := cp.1 - plane_normal_world * radius,
                point_b := cp.1 - plane_normal_world * cp.2 })

/-- box_vs_box_sat (engine/servers/physics/solver/sat.py).  Its first loop
iteration (i = 0) evaluates half_extents_A[i]; Vector3 defines neither
__getitem__ nor __class_getitem__, so subscripting raises TypeError on every
call, before any other observable work.  The whole 15-axis test that follows
is unreachable dead code, so the function is embedded as the raised
exception. -/
def box_vs_box_sat (tA : Transform3D) (dA : ShapeParams)
    (tB : Transform3D) (dB : ShapeParams) : PyResult (Option CollisionResult) :=
  .error .typeError

def GJK_MAX_ITERATIONS : Nat := 64

def EPA_MAX_ITERATIONS : Nat := 64

def EPA_MAX_FACES : Nat := 64

/-- Triangle face of the EPA polytope (EPAFace in epa.py): three indices
into the point list, an oriented unit normal and its distance to the
origin. -/
structure EPAFace where
  i0 : Nat
  i1 : Nat
  i2 : Nat
  normal : Vector3
  distance : ℚ
deriving DecidableEq, Repr

/-- Face construction shared by the initial-tetrahedron loop (epa.py lines
39-58) and the expansion loop (lines 123-146): compute the face normal,
normalize it when long enough, flip it (and swap the first two indices) so
it points towards the origin, and record the distance. -/
def make_epa_face (points : List SupportPoint) (a b c : Nat) : EPAFace :=
  let pa := (points.getD a spDefault).minkowski
  let pb := (points.getD b spDefault).minkowski
  let pc := (points.getD c spDefault).minkowski
  let ab := pb - pa
  let ac := pc - pa
  let n0 := ab.cross ac
  let len := n0.length
  let n1 := if len > EPSILON then n0.divQ len else n0
  if n1.dot pa > 0 then ⟨b, a, c, -n1, |(-n1).dot pa|⟩
  else ⟨a, b, c, n1, |n1.dot pa|⟩

/-- Scan for the face of minimum distance, mirroring the Python loop that
starts at index 1 with the strict comparison faces[i].distance <
min_distance (first minimum wins). -/
def min_face_scan : List EPAFace → Nat → Nat → ℚ → Nat × ℚ
  | [], _, best_idx, best_dist => (best_idx, best_dist)
  | f :: rest, i, best_idx, best_dist =>
    if f.distance < best_dist then min_face_scan rest (i + 1) i f.distance
    else min_face_scan rest (i + 1) best_idx best_dist

/-- Silhouette-edge collection of the EPA expansion step: for every face
visible from the new support point, insert its three directed edges,
cancelling an edge against its reverse if already present (list.remove of
the first occurrence). -/
def epa_collect_edges (points : List SupportPoint) (suppM : Vector3) :
    List EPAFace → List (Nat × Nat) → List (Nat × Nat)
  | [], edges => edges
  | f :: rest, edges =>
    let pa := (points.getD f.i0 spDefault).minkowski
    if f.normal.dot (suppM - pa) > 0 then
      let step := fun (es : List (Nat × Nat)) (e : Nat × Nat) =>
        if es.contains (e.2, e.1) then es.erase (e.2, e.1) else es ++ [e]
      let es1 := step edges (f.i0, f.i1)
      let es2 := step es1 (f.i1, f.i2)
      let es3 := step es2 (f.i2, f.i0)
      epa_collect_edges points suppM rest es3
    else epa_collect_edges points suppM rest edges

/-- Visibility test used both for edge collection and face removal. -/
def epa_face_visible (points : List SupportPoint) (suppM : Vector3)
    (f : EPAFace) : Bool :=
  decide (f.normal.dot (suppM - (points.getD f.i0 spDefault).minkowski) > 0)

/-- Iteration of run_epa (epa.py lines 61-149), with the remaining iteration
count as fuel.  Exhausting the fuel or exceeding EPA_MAX_FACES falls through
to Python's final return None.  An empty face list would make faces[0]
raise IndexError. -/
def epa_loop (sA : ShapeType) (tA : Transform3D) (dA : ShapeParams)
    (sB : ShapeType) (tB : Transform3D) (dB : ShapeParams) :
    Nat → List SupportPoint → List EPAFace → PyResult (Option CollisionResult)
  | 0, _, _ => .ok none
  | fuel + 1, points, faces =>
    match faces with
    | [] => .error .indexError
    | f0 :: rest =>
      let md := min_face_scan rest 1 0 f0.distance
      let min_face := faces.getD md.1 f0
      let supp := support min_face.normal sA tA dA sB tB dB
      let support_distance := min_face.normal.dot supp.minkowski
      if support_distance - md.2 < EPSILON then
        let pa := ((points.getD min_face.i0 spDefault).point_a +
          (points.getD min_face.i1 spDefault).point_a +
          (points.getD min_face.i2 spDefault).point_a).divQ 3
        let pb := ((points.getD min_face.i0 spDefault).point_b +
          (points.getD min_face.i1 spDefault).point_b +
          (points.getD min_face.i2 spDefault).point_b).divQ 3
        .ok (some { collided := true, normal := min_face.normal,
                    depth := md.2, point_a := pa, point_b := pb,
                    point := (pa + pb) * ((1 : ℚ) / 2) })
      else
        let points2 := points ++ [supp]
        let new_idx := points2.length - 1
        let edges := epa_collect_edges points2 supp.minkowski faces []
        let kept := faces.filter fun f => !(epa_face_visible points2 supp.minkowski f)
        let new_faces := edges.map fun e => make_epa_face points2 e.1 e.2 new_idx
        let faces2 := kept ++ new_faces
        if faces2.length > EPA_MAX_FACES then .ok none
        else epa_loop sA tA dA sB tB dB fuel points2 faces2

/-- run_epa (engine/servers/physics/solver/epa.py): build the initial
tetrahedron faces from the GJK terminal simplex and iterate. -/
def run_epa (simplex : List SupportPoint) (sA : ShapeType) (tA : Transform3D)
    (dA : ShapeParams) (sB : ShapeType) (tB : Transform3D) (dB : ShapeParams) :
    PyResult (Option CollisionResult) :=
  let points := simplex
  let faces := [make_epa_face points 0 1 2, make_epa_face points 0 2 3,
                make_epa_face points 0 3 1, make_epa_face points 1 3 2]
  epa_loop sA tA dA sB tB dB EPA_MAX_ITERATIONS points faces

/-- Two-point simplex case of process_simplex (gjk.py lines 70-90).  The
Python code writes the cross products into the direction object in place;
temp aliases direction, so the second triple product reads the components
written moments before (dx feeds dy and dz, dy feeds dz).  The sequential
lets reproduce that aliasing exactly. -/
def process_simplex2 (s0 s1 : SupportPoint) :
    List SupportPoint × Vector3 × Bool :=
  let a := s1.minkowski
  let b := s0.minkowski
  let ab := b - a
  let ao := -a
  if ab.dot ao > 0 then
    let c := ab.cross ao
    let dx := c.y * ab.z - c.z * ab.y
    let dy := c.z * ab.x - dx * ab.z
    let dz := dx * ab.y - dy * ab.x
    ([s0, s1], ⟨dx, dy, dz⟩, false)
  else ([s1], ao, false)

/-- Three-point simplex case of process_simplex (gjk.py lines 92-145).
Here temp is a fresh vector, so the triple products are ordinary
(u x v) x w cross products. -/
def process_simplex3 (s0 s1 s2 : SupportPoint) :
    List SupportPoint × Vector3 × Bool :=
  let a := s2.minkowski
  let b := s1.minkowski
  let c := s0.minkowski
  let ab := b - a
  let ac := c - a
  let ao := -a
  let abc := ab.cross ac
  if (ac.cross abc).dot ao > 0 then
    if ac.dot ao > 0 then ([s0, s2], (ac.cross ao).cross ac, false)
    else
      if ab.dot ao > 0 then ([s1, s2], (ab.cross ao).cross ab, false)
      else ([s2], ao, false)
  else
    if (abc.cross ab).dot ao > 0 then
      if ab.dot ao > 0 then ([s1, s2], (ab.cross ao).cross ab, false)
      else ([s2], ao, false)
    else
      if abc.dot ao > 0 then ([s0, s1, s2], abc, false)
      else ([s1, s0, s2], -abc, false)

/-- process_simplex (engine/servers/physics/solver/gjk.py): dispatch on the
simplex size; the four-point case drops the vertex behind one of the three
tested faces and recurses into the three-point case.  The GJK loop only
ever calls this with 2 to 4 points; other sizes are unreachable. -/
def process_simplex (simplex : List SupportPoint) (direction : Vector3) :
    List SupportPoint × Vector3 × Bool :=
  match simplex with
  | [s0, s1] => process_simplex2 s0 s1
  | [s0, s1, s2] => process_simplex3 s0 s1 s2
  | [s0, s1, s2, s3] =>
    let a := s3.minkowski
    let b := s2.minkowski
    let c := s1.minkowski
    let d := s0.minkowski
    let ab := b - a
    let ac := c - a
    let ad := d - a
    let ao := -a
    let abc := ab.cross ac
    let acd := ac.cross ad
    let adb := ad.cross ab
    if abc.dot ao > 0 then process_simplex3 s1 s2 s3
    else if acd.dot ao > 0 then process_simplex3 s0 s1 s3
    else if adb.dot ao > 0 then process_simplex3 s0 s2 s3
    else ([s0, s1, s2, s3], direction, true)
  | l => (l, direction, false)

/-- Iteration of solve_gjk_epa (gjk.py lines 35-62), with the remaining
iteration count as fuel; running out of fuel is Python's final return
None. -/
def gjk_loop (sA : ShapeType) (tA : Transform3D) (dA : ShapeParams)
    (sB : ShapeType) (tB : Transform3D) (dB : ShapeParams) :
    Nat → List SupportPoint → Vector3 → PyResult (Option CollisionResult)
  | 0, _, _ => .ok none
  | fuel + 1, simplex, direction =>
    let supp := support direction sA tA dA sB tB dB
    if supp.minkowski.dot direction ≤ 0 then .ok none
    else
      let r := process_simplex (simplex ++ [supp]) direction
      if r.2.2 then run_epa r.1 sA tA dA sB tB dB
      else gjk_loop sA tA dA sB tB dB fuel r.1 r.2.1

/-- solve_gjk_epa (engine/servers/physics/solver/gjk.py): GJK intersection
test followed by EPA penetration depth. -/
def solve_gjk_epa (sA : ShapeType) (tA : Transform3D) (dA : ShapeParams)
    (sB : ShapeType) (tB : Transform3D) (dB : ShapeParams) :
    PyResult (Option CollisionResult) :=
  let direction0 := tA.origin - tB.origin
  let direction1 : Vector3 :=
    if direction0.length_squared < EPSILON then ⟨1, 0, 0⟩ else direction0
  let supp := support direction1 sA tA dA sB tB dB
  gjk_loop sA tA dA sB tB dB GJK_MAX_ITERATIONS [supp] (-supp.minkowski)

/-- Mirrored-entry postlude of the dispatcher: result = solver(B, A); if
result: result.normal = -result.normal; return result.  A raised exception
propagates unchanged. -/
def negate_normal_result :
    PyResult (Option CollisionResult) → PyResult (Option CollisionResult)
  | .ok (some r) => .ok (some { r with normal := -r.normal })
  | other => other

/-- CollisionSolver3D.solve_static
(engine/servers/physics/collision_solver_3d.py): the narrowphase dispatch
table, with mirrored entries negating the returned normal. -/
def solve_static (sA : ShapeType) (tA : Transform3D) (dA : ShapeParams)
    (sB : ShapeType) (tB : Transform3D) (dB : ShapeParams) :
    PyResult (Option CollisionResult) :=
  if sA = .sphere ∧ sB = .sphere then solve_gjk_epa sA tA dA sB tB dB
  else if sA = .box ∧ sB = .box then box_vs_box_sat tA dA tB dB
  else if sA = .capsule ∧ sB = .capsule then capsule_vs_capsule tA dA tB dB
  else if sA = .capsule ∧ sB = .sphere then capsule_vs_sphere tA dA tB dB
  else if sA = .sphere ∧ sB = .capsule then
    negate_normal_result (capsule_vs_sphere tB dB tA dA)
  else if sA = .capsule ∧ sB = .box then capsule_vs_box tA dA tB dB
  else if sA = .box ∧ sB = .capsule then
    negate_normal_result (capsule_vs_box tB dB tA dA)
  else if sA = .capsule ∧ sB = .plane then capsule_vs_plane tA dA tB dB
  else if sA = .plane ∧ sB = .capsule then
    negate_normal_result (capsule_vs_plane tB dB tA dA)
  else if (sA = .sphere ∧ sB = .box) ∨ (sA = .box ∧ sB = .sphere) then
    solve_gjk_epa sA tA dA sB tB dB
  else solve_gjk_epa sA tA dA sB tB dB

/-- Entry of a body's shape list: the dict
{"shape": rid, "transform": t, "disabled": b}; shape_info.get("disabled",
False) is the field default. -/
structure ShapeInfo where
  shape : Nat
  transform : Transform3D
  disabled : Bool := false
deriving DecidableEq, Repr

/-- Contact3D (engine/servers/physics/bodies/contact_3d.py).  Python stores
a live reference to the collider Body3D; the embedding keeps its rid plus
its mode, which is all the step pipeline reads from it
(contact.collider.is_static()). -/
structure Contact3D where
  local_pos : Vector3 := ⟨0, 0, 0⟩
  local_normal : Vector3 := ⟨0, 0, 0⟩
  depth : ℚ := 0
  collider_rid : Nat := 0
  collider_mode : BodyMode := .rigid
  collider_shape : Nat := 0
  local_shape : Nat := 0
deriving DecidableEq, Repr

/-- Area space-override modes of PhysicsServer3DEnums. -/
inductive AreaOverrideMode where
  | disabledMode
  | combine
  | combineReplace
  | replaceMode
  | replaceCombine
deriving DecidableEq, Repr

/-- Body3D (engine/servers/physics/bodies/body_3d.py), the runtime body.
The space back-reference is omitted: no embedded function reads it.
Defaults are the constructor's initial values. -/
structure Body3D where
  rid : Nat
  mode : BodyMode
  transform : Transform3D := Transform3D.identityT
  linear_velocity : Vector3 := ⟨0, 0, 0⟩
  angular_velocity : Vector3 := ⟨0, 0, 0⟩
  biased_linear_velocity : Vector3 := ⟨0, 0, 0⟩
  biased_angular_velocity : Vector3 := ⟨0, 0, 0⟩
  mass : ℚ := 1
  inverse_mass : ℚ := 1
  inertia : Vector3 := ⟨1, 1, 1⟩
  inverse_inertia : Vector3 := ⟨1, 1, 1⟩
  center_of_mass : Vector3 := ⟨0, 0, 0⟩
  gravity_scale : ℚ := 1
  linear_damp : ℚ := 0
  angular_damp : ℚ := 0
  total_gravity : Vector3 := ⟨0, 0, 0⟩
  total_linear_damp : ℚ := 0
  total_angular_damp : ℚ := 0
  applied_force : Vector3 := ⟨0, 0, 0⟩
  applied_torque : Vector3 := ⟨0, 0, 0⟩
  contacts : List Contact3D := []
  collision_layer : Nat := 1
  collision_mask : Nat := 1
  shapes : List ShapeInfo := []
  disabled : Bool := false
  axis_lock : Nat := 0
  continuous_cd : Bool := false
  can_sleep : Bool := true
deriving DecidableEq, Repr

/-- Body3D.is_static: mode comparison against BODY_MODE_STATIC. -/
def Body3D.is_static (b : Body3D) : Bool := b.mode = .staticMode

/-- Body3D.is_kinematic. -/
def Body3D.is_kinematic (b : Body3D) : Bool := b.mode = .kinematic

/-- Body3D.is_rigid: RIGID or RIGID_LINEAR. -/
def Body3D.is_rigid (b : Body3D) : Bool :=
  b.mode = .rigid ∨ b.mode = .rigidLinear

/-- Body3D.is_active: not disabled and not static. -/
def Body3D.is_active (b : Body3D) : Bool := !b.disabled && !b.is_static

/-- Body3D.integrate_forces: explicit force/damping integration for rigid
bodies; clears the applied force and torque afterwards. -/
def Body3D.integrate_forces (b : Body3D) (delta : ℚ) : Body3D :=
  if !b.is_rigid then b
  else
    let linear_accel := b.total_gravity * b.gravity_scale +
      b.applied_force * b.inverse_mass
    let linear_damp_factor := max 0 (1 - b.total_linear_damp * delta)
    let angular_damp_factor := max 0 (1 - b.total_angular_damp * delta)
    let angular_accel : Vector3 := ⟨b.applied_torque.x * b.inverse_inertia.x,
      b.applied_torque.y * b.inverse_inertia.y,
      b.applied_torque.z * b.inverse_inertia.z⟩
    { b with
      linear_velocity := (b.linear_velocity + linear_accel * delta) *
        linear_damp_factor,
      angular_velocity := (b.angular_velocity + angular_accel * delta) *
        angular_damp_factor,
      applied_force := ⟨0, 0, 0⟩,
      applied_torque := ⟨0, 0, 0⟩ }

/-- Body3D.integrate_velocities.  For a static body this is a no-op.  For
every other body the Python code first evaluates
self.biased_linear_velocity or self.linear_velocity (Vector3 defines no
__bool__, so the or always yields the biased vector) and then tests
self.axis_lock & PhysicsServer3DEnums.BODY_AXIS_LINEAR_X.  That enum class
is a plain class whose members are enum.auto() sentinel objects, and
int & auto raises TypeError; the function therefore raises on every
non-static body before mutating any state. -/
def Body3D.integrate_velocities (b : Body3D) (delta : ℚ) : PyResult Body3D :=
  if b.is_static then .ok b else .error .typeError

/-- Area3D (engine/servers/physics/bodies/area_3d.py).  Defaults are the
constructor's initial values. -/
structure Area3D where
  rid : Nat
  transform : Transform3D := Transform3D.identityT
  shapes : List ShapeInfo := []
  collision_layer : Nat := 1
  collision_mask : Nat := 1
  priority : Int := 0
  gravity : ℚ := 49 / 5
  gravity_vector : Vector3 := ⟨0, -1, 0⟩
  gravity_is_point : Bool := false
  gravity_point_center : Vector3 := ⟨0, 0, 0⟩
  gravity_point_unit_distance : ℚ := 0
  linear_damp : ℚ := 1 / 10
  angular_damp : ℚ := 1 / 10
  space_override_mode : AreaOverrideMode := .disabledMode
  monitorable : Bool := false
  disabled : Bool := false
deriving DecidableEq, Repr

/-- Area3D.compute_gravity: directional, or radial towards a point with
optional inverse-square falloff. -/
def Area3D.compute_gravity (a : Area3D) (position : Vector3) : Vector3 :=
  if a.gravity_is_point then
    let to_center := a.gravity_point_center - position
    let distance := to_center.length
    if distance < 1 / 1000000 then ⟨0, 0, 0⟩
    else
      let direction := to_center.divQ distance
      let strength :=
        if a.gravity_point_unit_distance > 0 then
          a.gravity * (a.gravity_point_unit_distance / distance) ^ 2
        else a.gravity
      direction * strength
  else a.gravity_vector.normalized * a.gravity

/-- Area3D.is_active: not disabled and override mode not DISABLED. -/
def Area3D.is_active (a : Area3D) : Bool :=
  !a.disabled && a.space_override_mode ≠ .disabledMode

/-- Lookup in an insertion-ordered Python dict keyed by rid. -/
def dict_get {α : Type} (l : List (Nat × α)) (k : Nat) : Option α :=
  (l.find? fun p => p.1 = k).map fun p => p.2

/-- Assignment d[k] = v in an insertion-ordered Python dict: replaces in
place if the key exists, appends otherwise. -/
def dict_set {α : Type} (l : List (Nat × α)) (k : Nat) (v : α) :
    List (Nat × α) :=
  if (dict_get l k).isSome then
    l.map fun p => if p.1 = k then (k, v) else p
  else l ++ [(k, v)]

/-- del d[k] in an insertion-ordered Python dict. -/
def dict_del {α : Type} (l : List (Nat × α)) (k : Nat) : List (Nat × α) :=
  l.filter fun p => p.1 ≠ k

/-- ShapeStorage.ShapeData (engine/servers/physics/storage/shape.py).
Python initializes data to None and shape_set_data replaces it; the
embedding models the unset bag as the empty parameter bag (every getter
then returns its per-key default).  No theorem below reads an unset bag. -/
structure StoredShape where
  type : ShapeType
  data : ShapeParams := {}
deriving DecidableEq, Repr

/-- ShapeStorage (engine/servers/physics/storage/shape.py): an
insertion-ordered map from shape rid to shape data plus the id counter. -/
structure ShapeStorage where
  shapes : List (Nat × StoredShape) := []
  next_shape_id : Nat := 1
deriving DecidableEq, Repr

/-- ShapeStorage.shape_create: allocate a fresh rid and store the tagged
shape with no data. -/
def ShapeStorage.shape_create (st : ShapeStorage) (t : ShapeType) :
    Nat × ShapeStorage :=
  (st.next_shape_id,
   { shapes := dict_set st.shapes st.next_shape_id { type := t },
     next_shape_id := st.next_shape_id + 1 })

/-- ShapeStorage.shape_set_data: overwrite the data of a known shape; no-op
on an unknown handle. -/
def ShapeStorage.shape_set_data (st : ShapeStorage) (rid : Nat)
    (data : ShapeParams) : ShapeStorage :=
  match dict_get st.shapes rid with
  | some s => { st with shapes := dict_set st.shapes rid { s with data := data } }
  | none => st

/-- ShapeStorage.shape_get_data: the stored bag for a known shape, None for
an unknown handle. -/
def ShapeStorage.shape_get_data (st : ShapeStorage) (rid : Nat) :
    Option ShapeParams :=
  (dict_get st.shapes rid).map fun s => s.data

/-- ShapeStorage.shape_get_type: returns self._shapes[shape].type with no
membership check, so an unknown handle raises KeyError. -/
def ShapeStorage.shape_get_type (st : ShapeStorage) (rid : Nat) :
    PyResult ShapeType :=
  match dict_get st.shapes rid with
  | some s => .ok s.type
  | none => .error .keyError

/-- ShapeStorage._free_shape: delete a known shape; no-op otherwise. -/
def ShapeStorage.free_shape (st : ShapeStorage) (rid : Nat) : ShapeStorage :=
  if (dict_get st.shapes rid).isSome then
    { st with shapes := dict_del st.shapes rid }
  else st

/-- ShapeStorage._get_shape_data: dict.get, None on an unknown handle. -/
def ShapeStorage.get_shape_data (st : ShapeStorage) (rid : Nat) :
    Option StoredShape :=
  dict_get st.shapes rid

/-- BroadphaseEntry (broadphase_3d.py): the body reference with the AABB
and the layer/mask captured at insertion time. -/
structure BroadphaseEntry where
  body : Body3D
  aabb : AABB
  collision_layer : Nat
  collision_mask : Nat
deriving DecidableEq, Repr

/-- Broadphase3D: the insertion-ordered entry dict keyed by body rid.
Python stores live Body3D references in the entries; the embedding stores
the body value captured at add_body / update_body time (none of the
read-only query paths mutates bodies in between). -/
structure Broadphase3D where
  entries : List (Nat × BroadphaseEntry) := []
deriving DecidableEq, Repr

/-- Broadphase3D.add_body. -/
def Broadphase3D.add_body (bp : Broadphase3D) (body : Body3D) (aabb : AABB) :
    Broadphase3D :=
  { entries := dict_set bp.entries body.rid
      ⟨body, aabb, body.collision_layer, body.collision_mask⟩ }

/-- Broadphase3D.remove_body (keyed by rid). -/
def Broadphase3D.remove_body (bp : Broadphase3D) (rid : Nat) : Broadphase3D :=
  if (dict_get bp.entries rid).isSome then
    { entries := dict_del bp.entries rid }
  else bp

/-- Broadphase3D.update_body: refresh only the stored AABB of a known
body. -/
def Broadphase3D.update_body (bp : Broadphase3D) (body : Body3D) (aabb : AABB) :
    Broadphase3D :=
  match dict_get bp.entries body.rid with
  | some e =>
    { entries := dict_set bp.entries body.rid { e with aabb := aabb } }
  | none => bp

/-- Inner loop of get_collision_pairs over the entries after entry_a:
skip static-static pairs, then both directional mask tests, then keep the
pair when the AABBs overlap. -/
def pairs_inner (entry_a : BroadphaseEntry) :
    List BroadphaseEntry → List (Body3D × Body3D)
  | [] => []
  | entry_b :: rest =>
    if entry_a.body.is_static ∧ entry_b.body.is_static then
      pairs_inner entry_a rest
    else if entry_a.collision_mask &&& entry_b.collision_layer = 0 then
      pairs_inner entry_a rest
    else if entry_b.collision_mask &&& entry_a.collision_layer = 0 then
      pairs_inner entry_a rest
    else if entry_a.aabb.intersects entry_b.aabb then
      (entry_a.body, entry_b.body) :: pairs_inner entry_a rest
    else pairs_inner entry_a rest

/-- Outer loop of get_collision_pairs: the continue on a static entry_a
skips every pair whose first element (in insertion order) is static. -/
def pairs_outer : List BroadphaseEntry → List (Body3D × Body3D)
  | [] => []
  | e :: rest =>
    (if e.body.is_static then [] else pairs_inner e rest) ++ pairs_outer rest

/-- Broadphase3D.get_collision_pairs
(engine/servers/physics/spaces/broadphase/broadphase_3d.py lines 40-71). -/
def Broadphase3D.get_collision_pairs (bp : Broadphase3D) :
    List (Body3D × Body3D) :=
  pairs_outer (bp.entries.map fun p => p.2)

/-- Broadphase3D.query_aabb: bodies whose entry passes the mask test and
whose stored AABB overlaps the query AABB. -/
def Broadphase3D.query_aabb (bp : Broadphase3D) (aabb : AABB)
    (collision_mask : Nat) : List Body3D :=
  ((bp.entries.map fun p => p.2).filter fun e =>
    decide (collision_mask &&& e.collision_layer ≠ 0) &&
    aabb.intersects e.aabb).map fun e => e.body

/-- Minimum of a nonempty float list (Python min over the corner
generator). -/
def list_min (dflt : ℚ) : List ℚ → ℚ
  | [] => dflt
  | x :: xs => xs.foldl min x

/-- Maximum of a nonempty float list. -/
def list_max (dflt : ℚ) : List ℚ → ℚ
  | [] => dflt
  | x :: xs => xs.foldl max x

/-- _compute_shape_aabb (broadphase_3d.py lines 212-284): tight AABB per
shape type, with the plane special case and the unit-cube fallback. -/
def compute_shape_aabb (shape_type : ShapeType) (transform : Transform3D)
    (data : ShapeParams) : AABB :=
  match shape_type with
  | .sphere =>
    let radius := data.getRadius
    let center := transform.origin
    ⟨center - (⟨radius, radius, radius⟩ : Vector3),
     ⟨radius * 2, radius * 2, radius * 2⟩⟩
  | .box =>
    let he := data.getHalfExtents
    let corners : List Vector3 :=
      [⟨he.x, he.y, he.z⟩, ⟨he.x, he.y, -he.z⟩, ⟨he.x, -he.y, he.z⟩,
       ⟨he.x, -he.y, -he.z⟩, ⟨-he.x, he.y, he.z⟩, ⟨-he.x, he.y, -he.z⟩,
       ⟨-he.x, -he.y, he.z⟩, ⟨-he.x, -he.y, -he.z⟩]
    let transformed := corners.map transform.xform
    let min_pos : Vector3 := ⟨list_min 0 (transformed.map fun c => c.x),
      list_min 0 (transformed.map fun c => c.y),
      list_min 0 (transformed.map fun c => c.z)⟩
    let max_pos : Vector3 := ⟨list_max 0 (transformed.map fun c => c.x),
      list_max 0 (transformed.map fun c => c.y),
      list_max 0 (transformed.map fun c => c.z)⟩
    ⟨min_pos, max_pos - min_pos⟩
  | .capsule =>
    let radius := data.getRadius
    let height := data.getHeight
    let half_height := max 0 ((height - 2 * radius) * (1 / 2))
    let axis := transform.basis.y
    let p1 := transform.origin - axis * half_height
    let p2 := transform.origin + axis * half_height
    let min_pos : Vector3 := ⟨min p1.x p2.x - radius, min p1.y p2.y - radius,
      min p1.z p2.z - radius⟩
    let max_pos : Vector3 := ⟨max p1.x p2.x + radius, max p1.y p2.y + radius,
      max p1.z p2.z + radius⟩
    ⟨min_pos, max_pos - min_pos⟩
  | .plane =>
    let huge : ℚ := 10000
    let center := transform.origin
    ⟨center - (⟨huge, 1 / 10, huge⟩ : Vector3),
     ⟨huge * 2, 1 / 5, huge * 2⟩⟩
  | _ => ⟨transform.origin - (⟨1 / 2, 1 / 2, 1 / 2⟩ : Vector3), ⟨1, 1, 1⟩⟩

/-- Merge step of compute_body_aabb over the shapes after the first:
disabled shapes and shapes with freed data are skipped, the rest are merged
by componentwise min of corners. -/
def body_aabb_fold (storage : ShapeStorage) (transform : Transform3D) :
    List ShapeInfo → AABB → AABB
  | [], acc => acc
  | si :: rest, acc =>
    if si.disabled then body_aabb_fold storage transform rest acc
    else
      match storage.get_shape_data si.shape with
      | none => body_aabb_fold storage transform rest acc
      | some sd =>
        let sa := compute_shape_aabb sd.type (transform * si.transform) sd.data
        let min_pos : Vector3 := ⟨min acc.position.x sa.position.x,
          min acc.position.y sa.position.y, min acc.position.z sa.position.z⟩
        let max_pos : Vector3 := ⟨max acc.endp.x sa.endp.x,
          max acc.endp.y sa.endp.y, max acc.endp.z sa.endp.z⟩
        body_aabb_fold storage transform rest ⟨min_pos, max_pos - min_pos⟩

/-- compute_body_aabb (broadphase_3d.py lines 144-209), reading only the
shape list and transform of the body.  The first shape considered is the
first non-disabled one when shapes[0] is disabled (falling back to
shapes[0] when all are disabled); the remaining loop then runs over
shapes[1:] regardless. -/
def compute_body_aabb (storage : ShapeStorage) (shapes : List ShapeInfo)
    (transform : Transform3D) : AABB :=
  match shapes with
  | [] => ⟨transform.origin - (⟨1 / 10, 1 / 10, 1 / 10⟩ : Vector3),
           ⟨1 / 5, 1 / 5, 1 / 5⟩⟩
  | first :: rest =>
    let first_info :=
      if first.disabled then
        (shapes.find? fun si => !si.disabled).getD first
      else first
    match storage.get_shape_data first_info.shape with
    | none => ⟨transform.origin - (⟨1 / 10, 1 / 10, 1 / 10⟩ : Vector3),
               ⟨1 / 5, 1 / 5, 1 / 5⟩⟩
    | some sd =>
      let combined := compute_shape_aabb sd.type
        (transform * first_info.transform) sd.data
      body_aabb_fold storage transform rest combined

/-- Space3D (engine/servers/physics/spaces/space_3d.py): bodies and areas
in insertion-ordered dicts, the broadphase, and the space defaults.  The
shape-storage reference held by the Python object is passed explicitly to
the functions below. -/
structure Space3D where
  rid : Nat
  bodies : List (Nat × Body3D) := []
  areas : List (Nat × Area3D) := []
  broadphase : Broadphase3D := {}
  default_gravity : Vector3 := ⟨0, -49 / 5, 0⟩
  default_linear_damp : ℚ := 1 / 10
  default_angular_damp : ℚ := 1 / 10
  solver_iterations : Nat := 8
deriving DecidableEq, Repr

/-- Result dict of body_test_motion, with every key the Python code puts in
it.  The collider entry holds a live Body3D reference in Python; the
embedding stores the body value. -/
structure MotionResult where
  collided : Bool := false
  collision_point : Vector3 := ⟨0, 0, 0⟩
  collision_normal : Vector3 := ⟨0, 0, 0⟩
  collision_depth : ℚ := 0
  collider : Option Body3D := none
  collider_rid : Option Nat := none
  collider_shape : Nat := 0
  collision_local_shape : Nat := 0
  remainder : Vector3
  travel : Vector3 := ⟨0, 0, 0⟩
  collision_safe_fraction : ℚ := 1
  collision_unsafe_fraction : ℚ := 1
deriving DecidableEq, Repr

/-- Dict returned by _sweep_test on a hit. -/
structure SweepHit where
  fraction : ℚ
  point : Vector3
  normal : Vector3
  depth : ℚ
deriving DecidableEq, Repr

/-- int() truncation towards zero on a float. -/
def py_int (x : ℚ) : Int := if x ≥ 0 then x.floor else -((-x).floor)

/-- Sampling loop of _sweep_test over the fractions i / steps for
i in range(steps + 1): on the first collided result back up to the previous
sample (or 0).  A raised exception inside solve_static propagates. -/
def sweep_scan (sa : ShapeType) (ta : Transform3D) (da : ShapeParams)
    (motion : Vector3) (sb : ShapeType) (tb : Transform3D) (db : ShapeParams)
    (steps : Nat) : List Nat → PyResult (Option SweepHit)
  | [] => .ok none
  | i :: rest =>
    let fraction : ℚ := (i : ℚ) / (steps : ℚ)
    let test_transform := ta.translated (motion * fraction)
    match solve_static sa test_transform da sb tb db with
    | .error e => .error e
    | .ok (some cr) =>
      if cr.collided then
        let safe : ℚ := if i > 0 then ((i - 1 : ℕ) : ℚ) / (steps : ℚ) else 0
        .ok (some ⟨safe, cr.point, cr.normal, cr.depth⟩)
      else sweep_scan sa ta da motion sb tb db steps rest
    | .ok none => sweep_scan sa ta da motion sb tb db steps rest

/-- Space3D._sweep_test: discrete multi-sample sweep with
steps = min(max(1, int(length / 0.1) + 1), 10). -/
def sweep_test (sa : ShapeType) (ta : Transform3D) (da : ShapeParams)
    (motion : Vector3) (sb : ShapeType) (tb : Transform3D) (db : ShapeParams)
    (margin : ℚ) : PyResult (Option SweepHit) :=
  let steps := min (max 1 ((py_int (motion.length / (1 / 10))).toNat + 1)) 10
  sweep_scan sa ta da motion sb tb db steps (List.range (steps + 1))

/-- Dict built by _check_static_collision on an initial overlap. -/
structure InitHit where
  point : Vector3
  normal : Vector3
  depth : ℚ
  collider : Body3D
  collider_shape : Nat
  local_shape : Nat
deriving DecidableEq, Repr

/-- Innermost loop of _check_static_collision over a candidate's shapes:
first collided result wins (early return). -/
def static_other_scan (storage : ShapeStorage) (my_type : ShapeType)
    (my_gt : Transform3D) (my_data : ShapeParams) (cand : Body3D)
    (my_idx : Nat) : List (Nat × ShapeInfo) → PyResult (Option InitHit)
  | [] => .ok none
  | (j, osi) :: rest =>
    if osi.disabled then
      static_other_scan storage my_type my_gt my_data cand my_idx rest
    else
      match storage.get_shape_data osi.shape with
      | none => static_other_scan storage my_type my_gt my_data cand my_idx rest
      | some osd =>
        let ogt := cand.transform * osi.transform
        match solve_static my_type my_gt my_data osd.type ogt osd.data with
        | .error e => .error e
        | .ok (some cr) =>
          if cr.collided then
            .ok (some ⟨cr.point, cr.normal, cr.depth, cand, j, my_idx⟩)
          else static_other_scan storage my_type my_gt my_data cand my_idx rest
        | .ok none => static_other_scan storage my_type my_gt my_data cand my_idx rest

/-- Candidate loop of _check_static_collision. -/
def static_cand_scan (storage : ShapeStorage) (my_type : ShapeType)
    (my_gt : Transform3D) (my_data : ShapeParams) (my_idx : Nat) :
    List Body3D → PyResult (Option InitHit)
  | [] => .ok none
  | cand :: rest =>
    match static_other_scan storage my_type my_gt my_data cand my_idx
        cand.shapes.enum with
    | .error e => .error e
    | .ok (some h) => .ok (some h)
    | .ok none => static_cand_scan storage my_type my_gt my_data my_idx rest

/-- Own-shape loop of _check_static_collision. -/
def static_shape_scan (storage : ShapeStorage) (transform : Transform3D)
    (candidates : List Body3D) : List (Nat × ShapeInfo) →
    PyResult (Option InitHit)
  | [] => .ok none
  | (i, si) :: rest =>
    if si.disabled then static_shape_scan storage transform candidates rest
    else
      match storage.get_shape_data si.shape with
      | none => static_shape_scan storage transform candidates rest
      | some sd =>
        match static_cand_scan storage sd.type (transform * si.transform)
            sd.data i candidates with
        | .error e => .error e
        | .ok (some h) => .ok (some h)
        | .ok none => static_shape_scan storage transform candidates rest

/-- Space3D._compute_motion_aabb: merge of the body AABB at the start and
at the end of the motion (the temporary body only carries the shape list
and the transform). -/
def compute_motion_aabb (storage : ShapeStorage) (shapes : List ShapeInfo)
    (from_transform : Transform3D) (motion : Vector3) : AABB :=
  let start_aabb := compute_body_aabb storage shapes from_transform
  let end_aabb := compute_body_aabb storage shapes
    (from_transform.translated motion)
  let min_pos : Vector3 := ⟨min start_aabb.position.x end_aabb.position.x,
    min start_aabb.position.y end_aabb.position.y,
    min start_aabb.position.z end_aabb.position.z⟩
  let max_pos : Vector3 := ⟨max start_aabb.endp.x end_aabb.endp.x,
    max start_aabb.endp.y end_aabb.endp.y,
    max start_aabb.endp.z end_aabb.endp.z⟩
  ⟨min_pos, max_pos - min_pos⟩

/-- Space3D._check_static_collision: broadphase candidates at the resting
AABB, filtered, then the first overlapping shape pair. -/
def check_static_collision (storage : ShapeStorage) (sp : Space3D)
    (body : Body3D) (transform : Transform3D) (margin : ℚ)
    (exclude_rids : List Nat) : PyResult (Option InitHit) :=
  let aabb := compute_motion_aabb storage body.shapes transform ⟨0, 0, 0⟩
  let candidates := (sp.broadphase.query_aabb aabb body.collision_mask).filter
    fun b => decide (b.rid ≠ body.rid) && !(exclude_rids.contains b.rid) &&
      decide (body.collision_mask &&& b.collision_layer ≠ 0)
  if candidates.isEmpty then .ok none
  else static_shape_scan storage transform candidates body.shapes.enum

/-- Best sweep hit among all shape pairs, together with the collider
bookkeeping of body_test_motion. -/
structure BestHit where
  fraction : ℚ
  point : Vector3
  normal : Vector3
  depth : ℚ
  collider : Body3D
  collider_shape : Nat
  local_shape : Nat
deriving DecidableEq, Repr

/-- Innermost loop of the sweep phase of body_test_motion: keep the hit
with the strictly smallest safe fraction. -/
def sweep_other_scan (storage : ShapeStorage) (my_type : ShapeType)
    (my_gt : Transform3D) (my_data : ShapeParams) (motion : Vector3)
    (margin : ℚ) (cand : Body3D) (my_idx : Nat) :
    List (Nat × ShapeInfo) → ℚ × Option BestHit → PyResult (ℚ × Option BestHit)
  | [], acc => .ok acc
  | (j, osi) :: rest, acc =>
    if osi.disabled then
      sweep_other_scan storage my_type my_gt my_data motion margin cand my_idx
        rest acc
    else
      match storage.get_shape_data osi.shape with
      | none =>
        sweep_other_scan storage my_type my_gt my_data motion margin cand
          my_idx rest acc
      | some osd =>
        let ogt := cand.transform * osi.transform
        match sweep_test my_type my_gt my_data motion osd.type ogt osd.data
            margin with
        | .error e => .error e
        | .ok (some hit) =>
          let acc2 :=
            if hit.fraction < acc.1 then
              (hit.fraction,
               some ⟨hit.fraction, hit.point, hit.normal, hit.depth, cand, j,
                     my_idx⟩)
            else acc
          sweep_other_scan storage my_type my_gt my_data motion margin cand
            my_idx rest acc2
        | .ok none =>
          sweep_other_scan storage my_type my_gt my_data motion margin cand
            my_idx rest acc

/-- Candidate loop of the sweep phase. -/
def sweep_cand_scan (storage : ShapeStorage) (my_type : ShapeType)
    (my_gt : Transform3D) (my_data : ShapeParams) (motion : Vector3)
    (margin : ℚ) (my_idx : Nat) :
    List Body3D → ℚ × Option BestHit → PyResult (ℚ × Option BestHit)
  | [], acc => .ok acc
  | cand :: rest, acc =>
    match sweep_other_scan storage my_type my_gt my_data motion margin cand
        my_idx cand.shapes.enum acc with
    | .error e => .error e
    | .ok acc2 =>
      sweep_cand_scan storage my_type my_gt my_data motion margin my_idx rest
        acc2

/-- Own-shape loop of the sweep phase. -/
def sweep_shape_scan (storage : ShapeStorage) (from_transform : Transform3D)
    (motion : Vector3) (margin : ℚ) (candidates : List Body3D) :
    List (Nat × ShapeInfo) → ℚ × Option BestHit → PyResult (ℚ × Option BestHit)
  | [], acc => .ok acc
  | (i, si) :: rest, acc =>
    if si.disabled then
      sweep_shape_scan storage from_transform motion margin candidates rest acc
    else
      match storage.get_shape_data si.shape with
      | none =>
        sweep_shape_scan storage from_transform motion margin candidates rest
          acc
      | some sd =>
        match sweep_cand_scan storage sd.type (from_transform * si.transform)
            sd.data motion margin i candidates acc with
        | .error e => .error e
        | .ok acc2 =>
          sweep_shape_scan storage from_transform motion margin candidates
            rest acc2

/-- Sweep phase of Space3D.body_test_motion (the code after the
recovery-as-collision block): broadphase candidates over the motion AABB,
filtered, then the earliest sweep hit over every shape pair. -/
def motion_sweep_phase (storage : ShapeStorage) (sp : Space3D)
    (body : Body3D) (from_transform : Transform3D) (motion : Vector3)
    (margin : ℚ) (exclude_rids : List Nat) : PyResult MotionResult :=
  let result0 : MotionResult := { remainder := motion }
  let motion_aabb := compute_motion_aabb storage body.shapes from_transform
    motion
  let candidates := (sp.broadphase.query_aabb motion_aabb
    body.collision_mask).filter fun b =>
      decide (b.rid ≠ body.rid) && !(exclude_rids.contains b.rid) &&
      decide (body.collision_mask &&& b.collision_layer ≠ 0)
  if candidates.isEmpty then
    .ok { result0 with travel := motion, remainder := ⟨0, 0, 0⟩ }
  else
    match sweep_shape_scan storage from_transform motion margin candidates
        body.shapes.enum (1, none) with
    | .error e => .error e
    | .ok (_, some best) =>
      let safe_travel := motion * best.fraction
      .ok { result0 with
            collided := true,
            collision_point := best.point,
            collision_normal := best.normal,
            collision_depth := best.depth,
            collider := some best.collider,
            collider_rid := some best.collider.rid,
            collider_shape := best.collider_shape,
            collision_local_shape := best.local_shape,
            collision_safe_fraction := best.fraction,
            collision_unsafe_fraction := best.fraction,
            travel := safe_travel,
            remainder := motion - safe_travel }
    | .ok (_, none) =>
      .ok { result0 with travel := motion, remainder := ⟨0, 0, 0⟩ }

/-- Space3D.body_test_motion (space_3d.py lines 100-246): the swept motion
query.  Branches: no shapes; recovery-as-collision reporting an initial
overlap with zero travel; otherwise the sweep phase. -/
def space_body_test_motion (storage : ShapeStorage) (sp : Space3D)
    (body : Body3D) (from_transform : Transform3D) (motion : Vector3)
    (margin : ℚ) (exclude_rids : List Nat) (recovery_as_collision : Bool) :
    PyResult MotionResult :=
  let result0 : MotionResult := { remainder := motion }
  if body.shapes.isEmpty then
    .ok { result0 with travel := motion, remainder := ⟨0, 0, 0⟩ }
  else if recovery_as_collision then
    match check_static_collision storage sp body from_transform margin
        exclude_rids with
    | .error e => .error e
    | .ok (some ic) =>
      .ok { result0 with
            collided := true, collision_point := ic.point,
            collision_normal := ic.normal, collision_depth := ic.depth,
            collider := some ic.collider, collider_rid := some ic.collider.rid,
            collider_shape := ic.collider_shape,
            collision_local_shape := ic.local_shape,
            travel := ⟨0, 0, 0⟩, remainder := motion }
    | .ok none =>
      motion_sweep_phase storage sp body from_transform motion margin
        exclude_rids
  else
    motion_sweep_phase storage sp body from_transform motion margin
      exclude_rids

/-- Space3D._update_area_influences: reset every active body's totals to
the space defaults, then let every active area overwrite them for every
active body (last writer wins). -/
def update_area_influences (sp : Space3D) : Space3D :=
  let bodies1 := sp.bodies.map fun p =>
    if p.2.is_active then
      (p.1, { p.2 with
              total_gravity := sp.default_gravity,
              total_linear_damp := sp.default_linear_damp,
              total_angular_damp := sp.default_angular_damp })
    else p
  let bodies2 := sp.areas.foldl (fun bs ap =>
    if ap.2.is_active then
      bs.map fun p =>
        if p.2.is_active then
          (p.1, { p.2 with
                  total_gravity := ap.2.compute_gravity p.2.transform.origin,
                  total_linear_damp := ap.2.linear_damp,
                  total_angular_damp := ap.2.angular_damp })
        else p
    else bs) bodies1
  { sp with bodies := bodies2 }

/-- Inner loop of Space3D._test_body_pair over body_b's shapes: every
enabled shape combination through the dispatcher; each collision yields the
two mirrored contacts (normal negated on the second). -/
def test_pair_other (storage : ShapeStorage) (body_a body_b : Body3D)
    (i : Nat) (sa : ShapeType) (ta : Transform3D) (da : ShapeParams) :
    List (Nat × ShapeInfo) → PyResult (List (Contact3D × Contact3D))
  | [] => .ok []
  | (j, sbi) :: rest =>
    if sbi.disabled then test_pair_other storage body_a body_b i sa ta da rest
    else
      match storage.get_shape_data sbi.shape with
      | none => test_pair_other storage body_a body_b i sa ta da rest
      | some sbd =>
        let tb := body_b.transform * sbi.transform
        match solve_static sa ta da sbd.type tb sbd.data with
        | .error e => .error e
        | .ok r =>
          let contacts : List (Contact3D × Contact3D) :=
            match r with
            | some cr =>
              if cr.collided then
                [(⟨cr.point_a, cr.normal, cr.depth, body_b.rid, body_b.mode,
                   j, i⟩,
                  ⟨cr.point_b, -cr.normal, cr.depth, body_a.rid, body_a.mode,
                   i, j⟩)]
              else []
            | none => []
          match test_pair_other storage body_a body_b i sa ta da rest with
          | .error e => .error e
          | .ok more => .ok (contacts ++ more)

/-- Outer loop of Space3D._test_body_pair over body_a's shapes. -/
def test_pair_own (storage : ShapeStorage) (body_a body_b : Body3D) :
    List (Nat × ShapeInfo) → PyResult (List (Contact3D × Contact3D))
  | [] => .ok []
  | (i, sai) :: rest =>
    if sai.disabled then test_pair_own storage body_a body_b rest
    else
      match storage.get_shape_data sai.shape with
      | none => test_pair_own storage body_a body_b rest
      | some sad =>
        let ta := body_a.transform * sai.transform
        match test_pair_other storage body_a body_b i sad.type ta sad.data
            body_b.shapes.enum with
        | .error e => .error e
        | .ok cs =>
          match test_pair_own storage body_a body_b rest with
          | .error e => .error e
          | .ok more => .ok (cs ++ more)

/-- Append a contact to the body with the given rid (Python appends to the
live Body3D objects shared between the pair list and the bodies dict; the
embedding applies the append through the rid-keyed dict). -/
def add_contact_to (bodies : List (Nat × Body3D)) (rid : Nat)
    (c : Contact3D) : List (Nat × Body3D) :=
  bodies.map fun p =>
    if p.1 = rid then (p.1, { p.2 with contacts := p.2.contacts ++ [c] })
    else p

/-- Pair loop of Space3D._detect_collisions: run the narrowphase on every
broadphase pair and distribute the mirrored contacts. -/
def detect_pairs (storage : ShapeStorage) :
    List (Body3D × Body3D) → List (Nat × Body3D) →
    PyResult (List (Nat × Body3D))
  | [], bodies => .ok bodies
  | (a, b) :: rest, bodies =>
    match test_pair_own storage a b a.shapes.enum with
    | .error e => .error e
    | .ok cs =>
      let bodies2 := cs.foldl (fun bs cab =>
        add_contact_to (add_contact_to bs a.rid cab.1) b.rid cab.2) bodies
      detect_pairs storage rest bodies2

/-- Space3D._detect_collisions: clear every contact list, then test every
broadphase pair. -/
def detect_collisions (storage : ShapeStorage) (sp : Space3D) :
    PyResult Space3D :=
  let bodies0 := sp.bodies.map fun p => (p.1, { p.2 with contacts := [] })
  let pairs := sp.broadphase.get_collision_pairs
  match detect_pairs storage pairs bodies0 with
  | .error e => .error e
  | .ok bodies1 => .ok { sp with bodies := bodies1 }

/-- Per-contact step of Space3D._solve_collisions_simple: depenetrate away
from static colliders and zero the into-surface velocity component. -/
def resolve_contact_fold : List Contact3D → Transform3D × Vector3 →
    Transform3D × Vector3
  | [], acc => acc
  | c :: rest, acc =>
    if c.collider_mode = .staticMode then
      let origin2 := acc.1.origin + c.local_normal * (c.depth * (1 / 2))
      let t2 : Transform3D := ⟨acc.1.basis, origin2⟩
      let vel_along := acc.2.dot c.local_normal
      let v2 := if vel_along < 0 then acc.2 - c.local_normal * vel_along
                else acc.2
      resolve_contact_fold rest (t2, v2)
    else resolve_contact_fold rest acc

/-- Space3D._solve_collisions_simple: positional depenetration for rigid
bodies in contact. -/
def solve_collisions_simple (sp : Space3D) (delta : ℚ) : Space3D :=
  { sp with bodies := sp.bodies.map fun p =>
      if !p.2.is_rigid ∨ p.2.contacts.isEmpty then p
      else
        let tv := resolve_contact_fold p.2.contacts
          (p.2.transform, p.2.linear_velocity)
        (p.1, { p.2 with transform := tv.1, linear_velocity := tv.2 }) }

/-- Final phase of Space3D.step: integrate velocities of every active body
and refresh its broadphase AABB.  Body3D.integrate_velocities raises
TypeError for every non-static body (see its doc comment), and the
exception propagates out of step. -/
def integrate_phase (storage : ShapeStorage) (delta : ℚ) :
    List (Nat × Body3D) → List (Nat × Body3D) → Broadphase3D →
    PyResult (List (Nat × Body3D) × Broadphase3D)
  | [], done, bp => .ok (done, bp)
  | (rid, b) :: rest, done, bp =>
    if b.is_active then
      match b.integrate_velocities delta with
      | .error e => .error e
      | .ok b2 =>
        let aabb := compute_body_aabb storage b2.shapes b2.transform
        integrate_phase storage delta rest (done ++ [(rid, b2)])
          (bp.update_body b2 aabb)
    else integrate_phase storage delta rest (done ++ [(rid, b)]) bp

/-- Space3D.step (space_3d.py lines 421-444): the fixed-step pipeline.  A
non-positive delta is a no-op; otherwise area influence, force
integration, collision detection, simple resolution, velocity integration
and broadphase refresh run in order (an exception anywhere propagates). -/
def space_step (storage : ShapeStorage) (sp : Space3D) (delta : ℚ) :
    PyResult Space3D :=
  if delta ≤ 0 then .ok sp
  else
    let sp1 := update_area_influences sp
    let sp2 := { sp1 with bodies := sp1.bodies.map fun p =>
      if p.2.is_rigid then (p.1, p.2.integrate_forces delta) else p }
    match detect_collisions storage sp2 with
    | .error e => .error e
    | .ok sp3 =>
      let sp4 := solve_collisions_simple sp3 delta
      match integrate_phase storage delta sp4.bodies [] sp4.broadphase with
      | .error e => .error e
      | .ok bb => .ok { sp4 with bodies := bb.1, broadphase := bb.2 }

/-- BodyStorage.BodyData (engine/servers/physics/storage/body.py).  The
runtime_body field holds the same Body3D object that the space's bodies
dict holds; the embedding stores the body value created at
body_set_space time. -/
structure BodyData where
  mode : BodyMode := .rigid
  space : Option Nat := none
  transform : Transform3D := Transform3D.identityT
  shapes : List ShapeInfo := []
  collision_layer : Nat := 1
  collision_mask : Nat := 1
  axis_lock : Nat := 0
  linear_velocity : Vector3 := ⟨0, 0, 0⟩
  angular_velocity : Vector3 := ⟨0, 0, 0⟩
  runtime_body : Option Body3D := none
deriving DecidableEq, Repr

/-- SpaceStorage.SpaceData: the Space3D is constructed eagerly, so the
Python checks of the form if not space_data.space_3d are always false. -/
structure SpaceData where
  space_3d : Space3D
  body_rids : List Nat := []
  area_rids : List Nat := []
deriving DecidableEq, Repr

/-- PhysicsServer3DStorage / PhysicsServer3DSoftware: the combined storage
(shape, body, space) of the software physics backend.  Python mixes the
three storage classes by multiple inheritance; the embedding composes
them. -/
structure PhysicsServer where
  shape_storage : ShapeStorage := {}
  bodies : List (Nat × BodyData) := []
  next_body_id : Nat := 1
  spaces : List (Nat × SpaceData) := []
  active_spaces : List Nat := []
  next_space_id : Nat := 1
deriving DecidableEq, Repr

/-- Parameter dict of body_test_motion.  Python reads each key with
parameters.get and these defaults; the record models the keys as always
present. -/
structure MotionParams where
  fromT : Transform3D := Transform3D.identityT
  motion : Vector3 := ⟨0, 0, 0⟩
  margin : ℚ := 1 / 1000
  exclude : List Nat := []
  recovery_as_collision : Bool := false
deriving DecidableEq, Repr

/-- RID truthiness: if not space_rid is true for None and for an invalid
rid (id 0). -/
def rid_falsy : Option Nat → Bool
  | none => true
  | some r => r = 0

/-- PhysicsServer3DSoftware.body_test_motion
(physics_server_3d_software.py lines 16-83): resolve the body, its space
and its runtime body, then delegate to Space3D.body_test_motion.  An
unknown body returns the untouched default dict (remainder = motion,
travel = zero); a missing space or runtime body returns travel = motion,
remainder = zero. -/
def server_body_test_motion (srv : PhysicsServer) (body : Nat)
    (params : MotionParams) : PyResult MotionResult :=
  let result0 : MotionResult := { remainder := params.motion }
  match dict_get srv.bodies body with
  | none => .ok result0
  | some bd =>
    if rid_falsy bd.space then
      .ok { result0 with travel := params.motion, remainder := ⟨0, 0, 0⟩ }
    else
      match bd.space with
      | none =>
        .ok { result0 with travel := params.motion, remainder := ⟨0, 0, 0⟩ }
      | some srid =>
        match dict_get srv.spaces srid with
        | none =>
          .ok { result0 with travel := params.motion, remainder := ⟨0, 0, 0⟩ }
        | some sd =>
          match bd.runtime_body with
          | none =>
            .ok { result0 with
                  travel := params.motion, remainder := ⟨0, 0, 0⟩ }
          | some rb =>
            space_body_test_motion srv.shape_storage sd.space_3d rb
              params.fromT params.motion params.margin params.exclude
              params.recovery_as_collision

/-- Space loop of PhysicsServer3DSoftware.step over the active spaces. -/
def server_step_spaces (storage : ShapeStorage) (delta : ℚ) :
    List Nat → List (Nat × SpaceData) → PyResult (List (Nat × SpaceData))
  | [], spaces => .ok spaces
  | srid :: rest, spaces =>
    match dict_get spaces srid with
    | none => server_step_spaces storage delta rest spaces
    | some sd =>
      match space_step storage sd.space_3d delta with
      | .error e => .error e
      | .ok sp2 =>
        server_step_spaces storage delta rest
          (dict_set spaces srid { sd with space_3d := sp2 })

/-- PhysicsServer3DSoftware.step (physics_server_3d_software.py lines
85-104): a non-positive delta is a no-op, otherwise every active space
steps. -/
def server_step (srv : PhysicsServer) (delta : ℚ) : PyResult PhysicsServer :=
  if delta ≤ 0 then .ok srv
  else
    match server_step_spaces srv.shape_storage delta srv.active_spaces
        srv.spaces with
    | .error e => .error e
    | .ok spaces2 => .ok { srv with spaces := spaces2 }

/-- KinematicCollision3D (engine/scene/three_d/kinematic_collision_3d.py).
The collider field holds the runtime body object in Python; the embedding
stores its value. -/
structure KinematicCollision3D where
  position : Vector3 := ⟨0, 0, 0⟩
  normal : Vector3 := ⟨0, 0, 0⟩
  collider : Option Body3D := none
  collider_rid : Option Nat := none
  remainder : Vector3 := ⟨0, 0, 0⟩
  depth : ℚ := 0
deriving DecidableEq, Repr

/-- Scene-side PhysicsBody3D state used by move_and_collide: the shape rid
list of CollisionObject3D (has_shapes tests its length) and the node's
global transform (the body has no scene-graph parent in this model, so
the global_position setter writes the transform origin directly). -/
structure PhysBody where
  rid : Nat
  scene_shapes : List Nat := []
  global_transform : Transform3D := Transform3D.identityT
deriving DecidableEq, Repr

/-- PhysicsBody3D.move_and_collide
(engine/scene/three_d/physics_body_3d.py lines 33-70): early None when the
scene body has no shapes; otherwise run body_test_motion, apply travel (or
the full motion when unobstructed) to the global position unless
test_only, and wrap the collision data. -/
def move_and_collide (srv : PhysicsServer) (body : PhysBody)
    (motion : Vector3) (test_only : Bool) (safe_margin : ℚ)
    (recovery_as_collision : Bool) :
    PyResult (Option KinematicCollision3D × PhysBody) :=
  if !(body.scene_shapes.length > 0) then .ok (none, body)
  else
    let params : MotionParams :=
      { fromT := body.global_transform, motion := motion,
        margin := safe_margin, recovery_as_collision := recovery_as_collision,
        exclude := [body.rid] }
    match server_body_test_motion srv body.rid params with
    | .error e => .error e
    | .ok res =>
      if res.collided then
        let collision : KinematicCollision3D :=
          { position := res.collision_point, normal := res.collision_normal,
            collider := res.collider, collider_rid := res.collider_rid,
            remainder := res.remainder, depth := res.collision_depth }
        let body2 :=
          if test_only then body
          else { body with global_transform :=
                  ⟨body.global_transform.basis,
                   body.global_transform.origin + res.travel⟩ }
        .ok (some collision, body2)
      else
        let body2 :=
          if test_only then body
          else { body with global_transform :=
                  ⟨body.global_transform.basis,
                   body.global_transform.origin + motion⟩ }
        .ok (none, body2)

/-- CharacterMotionState
(engine/scene/three_d/character_body_3d/motion_state.py). -/
structure CharacterMotionState where
  velocity : Vector3 := ⟨0, 0, 0⟩
  on_floor : Bool := false
  on_wall : Bool := false
  on_ceiling : Bool := false
  floor_normal : Vector3 := ⟨0, 0, 0⟩
  wall_normal : Vector3 := ⟨0, 0, 0⟩
  ceiling_normal : Vector3 := ⟨0, 0, 0⟩
  platform_rid : Option Nat := none
  platform_velocity : Vector3 := ⟨0, 0, 0⟩
  platform_angular_velocity : Vector3 := ⟨0, 0, 0⟩
deriving DecidableEq, Repr

/-- CharacterMotionConfig
(engine/scene/three_d/character_body_3d/motion_config.py); the float
literals 0.785398 and 0.261799 are modelled by their decimal values. -/
structure CharacterMotionConfig where
  floor_max_angle : ℚ := 785398 / 1000000
  wall_min_slide_angle : ℚ := 261799 / 1000000
  floor_block_on_wall : Bool := true
  floor_constant_speed : Bool := false
  floor_snap_length : ℚ := 1 / 10
  up_direction : Vector3 := ⟨0, 1, 0⟩
  safe_margin : ℚ := 1 / 1000
  max_slides : Nat := 4
deriving DecidableEq, Repr

/-- Model of the transcendental functions used by the character solver:
math.acos and math.pi.  The solver theorems hold for every choice of this
structure, so no properties are assumed of it. -/
structure RealFns where
  acos : ℚ → ℚ
  pi : ℚ

/-- VelocityResolver.slide: remove the velocity component along the
normal. -/
def vr_slide (velocity normal : Vector3) : Vector3 :=
  velocity - normal * velocity.dot normal

/-- VelocityResolver.project_on_floor (an alias of slide). -/
def vr_project_on_floor (velocity normal : Vector3) : Vector3 :=
  vr_slide velocity normal

/-- CollisionClassifier.classify
(engine/scene/three_d/character_body_3d/collision_classifier.py): set the
floor, ceiling or wall flag from the angle between the normal and the up
direction. -/
def classify (rm : RealFns) (normal : Vector3)
    (state : CharacterMotionState) (config : CharacterMotionConfig) :
    CharacterMotionState :=
  let angle := rm.acos (normal.dot config.up_direction)
  if angle ≤ config.floor_max_angle + 1 / 100 then
    { state with on_floor := true, floor_normal := normal }
  else if angle ≥ rm.pi / 2 + 1 / 100 then
    { state with on_ceiling := true, ceiling_normal := normal }
  else { state with on_wall := true, wall_normal := normal }

/-- SlideSolver._is_floor_collision: floor angle and a positive upward
normal component. -/
def is_floor_collision (rm : RealFns) (collision_normal : Vector3)
    (config : CharacterMotionConfig) : Bool :=
  let normal_dot_up := collision_normal.dot config.up_direction
  let angle := rm.acos (max (-1) (min 1 normal_dot_up))
  decide (angle ≤ config.floor_max_angle) && decide (normal_dot_up > 0)

/-- SlideSolver._resolve_floor_collision: project the velocity on the floor
plane, optionally rescaled to keep the horizontal speed. -/
def resolve_floor_collision (velocity normal : Vector3)
    (config : CharacterMotionConfig) : Vector3 :=
  let projected := vr_project_on_floor velocity normal
  if config.floor_constant_speed then
    let horizontal_vel := velocity -
      config.up_direction * velocity.dot config.up_direction
    let horizontal_speed := horizontal_vel.length
    if horizontal_speed > 1 / 10000 then
      let projected_horizontal := projected -
        config.up_direction * projected.dot config.up_direction
      let projected_horizontal_speed := projected_horizontal.length
      if projected_horizontal_speed > 1 / 10000 then
        projected * (horizontal_speed / projected_horizontal_speed)
      else projected
    else projected
  else projected

/-- SlideSolver._resolve_wall_collision: hard stop below the minimum slide
angle, slide otherwise. -/
def resolve_wall_collision (rm : RealFns) (velocity normal : Vector3)
    (config : CharacterMotionConfig) : Vector3 :=
  let velocity_length := velocity.length
  if velocity_length < 1 / 10000 then velocity
  else
    let velocity_normalized := velocity.normalized
    let dot := -(velocity_normalized.dot normal)
    let angle := rm.acos (max (-1) (min 1 dot))
    if angle < config.wall_min_slide_angle then
      velocity - normal * velocity.dot normal
    else vr_slide velocity normal

/-- SlideSolver._project_motion_on_surface. -/
def project_motion_on_surface (motion normal : Vector3) (is_floor : Bool)
    (config : CharacterMotionConfig) : Vector3 :=
  if is_floor && config.floor_constant_speed then
    let horizontal_motion := motion -
      config.up_direction * motion.dot config.up_direction
    let horizontal_length := horizontal_motion.length
    let projected := vr_project_on_floor motion normal
    let projected_horizontal := projected -
      config.up_direction * projected.dot config.up_direction
    let projected_horizontal_length := projected_horizontal.length
    if projected_horizontal_length > 1 / 10000 ∧ horizontal_length > 1 / 10000
    then projected * (horizontal_length / projected_horizontal_length)
    else projected
  else vr_slide motion normal

/-- SlideSolver.MIN_MOTION_THRESHOLD. -/
def MIN_MOTION_THRESHOLD : ℚ := 1 / 1000

/-- Outcome of SlideSolver.solve, instrumented with the number of
move_and_collide calls performed (one per executed loop iteration); the
counter is an embedding artifact used to state the iteration bound. -/
structure SlideOutcome where
  collisions : List KinematicCollision3D
  sweep_tests : Nat
  body : PhysBody
  state : CharacterMotionState
deriving DecidableEq, Repr

/-- Loop body of SlideSolver.solve
(engine/scene/three_d/character_body_3d/slide_solver.py lines 54-104),
recursing on the remaining iteration budget.  Near-zero remaining motion
or an unobstructed sweep breaks out of the loop. -/
def slide_loop (rm : RealFns) (srv : PhysicsServer)
    (config : CharacterMotionConfig) :
    Nat → PhysBody → CharacterMotionState → Vector3 → Vector3 →
    List KinematicCollision3D → Nat → PyResult SlideOutcome
  | 0, body, state, _, _, acc, count => .ok ⟨acc, count, body, state⟩
  | n + 1, body, state, remaining_motion, current_velocity, acc, count =>
    if remaining_motion.length_squared <
        MIN_MOTION_THRESHOLD * MIN_MOTION_THRESHOLD then
      .ok ⟨acc, count, body, state⟩
    else
      match move_and_collide srv body remaining_motion false
          config.safe_margin false with
      | .error e => .error e
      | .ok (none, body2) => .ok ⟨acc, count + 1, body2, state⟩
      | .ok (some collision, body2) =>
        let acc2 := acc ++ [collision]
        let state2 := classify rm collision.normal state config
        let is_floor := is_floor_collision rm collision.normal config
        let current_velocity2 :=
          if is_floor && (config.floor_block_on_wall && state2.on_wall) then
            resolve_wall_collision rm current_velocity collision.normal config
          else if is_floor then
            resolve_floor_collision current_velocity collision.normal config
          else
            resolve_wall_collision rm current_velocity collision.normal config
        let state3 := { state2 with velocity := current_velocity2 }
        let remaining2 :=
          if collision.remainder.length_squared > 0 then collision.remainder
          else project_motion_on_surface remaining_motion collision.normal
            is_floor config
        let remaining3 :=
          if remaining2.dot collision.normal > 0 then
            remaining2 - collision.normal * (remaining2.dot collision.normal)
          else remaining2
        slide_loop rm srv config n body2 state3 remaining3 current_velocity2
          acc2 (count + 1)

/-- SlideSolver.solve: up to max_slides iterations starting from the
requested motion and the state's velocity. -/
def slide_solve (rm : RealFns) (srv : PhysicsServer) (body : PhysBody)
    (motion : Vector3) (state : CharacterMotionState)
    (config : CharacterMotionConfig) (max_slides : Nat) :
    PyResult SlideOutcome :=
  slide_loop rm srv config max_slides body state motion state.velocity [] 0

/-- Adding the zero vector on the right is the identity. -/
theorem v3_add_zero (v : Vector3) : v + (⟨0, 0, 0⟩ : Vector3) = v := by
  cases v with
  | mk x y z =>
    show Vector3.mk (x + 0) (y + 0) (z + 0) = ⟨x, y, z⟩
    simp only [Vector3.mk.injEq]
    refine ⟨by ring, by ring, by ring⟩

/-- Adding the zero vector on the left is the identity. -/
theorem v3_zero_add (v : Vector3) : (⟨0, 0, 0⟩ : Vector3) + v = v := by
  cases v with
  | mk x y z =>
    show Vector3.mk (0 + x) (0 + y) (0 + z) = ⟨x, y, z⟩
    simp only [Vector3.mk.injEq]
    refine ⟨by ring, by ring, by ring⟩

/-- travel plus remainder reassembles the motion: a + (b - a) = b. -/
theorem v3_add_sub_cancel (a b : Vector3) : a + (b - a) = b := by
  cases a with
  | mk ax ay az =>
    cases b with
    | mk bx bb bz =>
      show Vector3.mk (ax + (bx - ax)) (ay + (bb - ay)) (az + (bz - az)) =
        ⟨bx, bb, bz⟩
      simp only [Vector3.mk.injEq]
      refine ⟨by ring, by ring, by ring⟩

/-- C8: a non-positive delta makes both Space3D.step and
PhysicsServer3DSoftware.step a strict no-op: the state is returned
untouched (bodies, areas, broadphase, every field), and nothing of the
pipeline after the guard runs. -/
theorem C8_step_nonpositive_delta_noop (storage : ShapeStorage)
    (sp : Space3D) (srv : PhysicsServer) (delta : ℚ) (h : delta ≤ 0) :
    space_step storage sp delta = .ok sp ∧
    server_step srv delta = .ok srv := by
  constructor
  · unfold space_step
    rw [if_pos h]
  · unfold server_step
    rw [if_pos h]

/-- C8 witness: the guard at delta = 0 on a concrete space and server. -/
theorem C8_step_nonpositive_delta_noop_witness :
    space_step {} { rid := 1 } 0 = .ok { rid := 1 } ∧
    server_step {} 0 = .ok {} :=
  C8_step_nonpositive_delta_noop {} { rid := 1 } {} 0 (by norm_num)

/-- C10: move_and_collide on a scene body whose shape list is empty
returns None and leaves the body (in particular its global position)
untouched, for every motion vector, even with test_only = false: the
has_shapes early-out precedes both the motion query and the position
update. -/
theorem C10_move_and_collide_shapeless (srv : PhysicsServer)
    (body : PhysBody) (motion : Vector3) (test_only : Bool) (margin : ℚ)
    (rcv : Bool) (h : body.scene_shapes = []) :
    move_and_collide srv body motion test_only margin rcv = .ok (none, body) := by
  unfold move_and_collide
  rw [h]
  simp

/-- C10 witness: a shapeless body with a nonzero unobstructed motion and
test_only = false. -/
theorem C10_move_and_collide_shapeless_witness :
    move_and_collide {} { rid := 7 } ⟨3, 0, 0⟩ false (1 / 1000) false =
      .ok (none, { rid := 7 }) :=
  C10_move_and_collide_shapeless {} { rid := 7 } ⟨3, 0, 0⟩ false (1 / 1000)
    false rfl

/-- C6: body_test_motion degenerates to a full, collision-free move both
when the tested runtime body has no shapes (Space3D branch) and when the
storage body is not attached to a space (server branch): the result has
collided = false, travel = motion, remainder = zero, and every other
documented field at its default value. -/
theorem C6_shapeless_or_spaceless_full_travel (storage : ShapeStorage)
    (sp : Space3D) (body : Body3D) (fromT : Transform3D) (motion : Vector3)
    (margin : ℚ) (excl : List Nat) (rcv : Bool) (srv : PhysicsServer)
    (rid : Nat) (params : MotionParams) (bd : BodyData)
    (h1 : body.shapes = []) (h2 : dict_get srv.bodies rid = some bd)
    (h3 : bd.space = none) :
    space_body_test_motion storage sp body fromT motion margin excl rcv =
      .ok { collided := false, collision_point := ⟨0, 0, 0⟩,
            collision_normal := ⟨0, 0, 0⟩, collision_depth := 0,
            collider := none, collider_rid := none, collider_shape := 0,
            collision_local_shape := 0, remainder := ⟨0, 0, 0⟩,
            travel := motion, collision_safe_fraction := 1,
            collision_unsafe_fraction := 1 } ∧
    server_body_test_motion srv rid params =
      .ok { collided := false, collision_point := ⟨0, 0, 0⟩,
            collision_normal := ⟨0, 0, 0⟩, collision_depth := 0,
            collider := none, collider_rid := none, collider_shape := 0,
            collision_local_shape := 0, remainder := ⟨0, 0, 0⟩,
            travel := params.motion, collision_safe_fraction := 1,
            collision_unsafe_fraction := 1 } := by
  constructor
  · unfold space_body_test_motion
    rw [h1]
    rfl
  · unfold server_body_test_motion
    rw [h2]
    dsimp only
    rw [h3]
    rfl

/-- C6 witness: a kinematic body with an empty shape list tested in an
empty space, and a storage body (rid 5) with no space attached. -/
theorem C6_shapeless_or_spaceless_full_travel_witness :
    space_body_test_motion {} { rid := 1 } { rid := 2, mode := .kinematic }
      Transform3D.identityT ⟨1, 2, 3⟩ (1 / 1000) [] false =
      .ok { collided := false, collision_point := ⟨0, 0, 0⟩,
            collision_normal := ⟨0, 0, 0⟩, collision_depth := 0,
            collider := none, collider_rid := none, collider_shape := 0,
            collision_local_shape := 0, remainder := ⟨0, 0, 0⟩,
            travel := ⟨1, 2, 3⟩, collision_safe_fraction := 1,
            collision_unsafe_fraction := 1 } ∧
    server_body_test_motion { bodies := [(5, {})] } 5 { motion := ⟨2, 0, 0⟩ } =
      .ok { collided := false, collision_point := ⟨0, 0, 0⟩,
            collision_normal := ⟨0, 0, 0⟩, collision_depth := 0,
            collider := none, collider_rid := none, collider_shape := 0,
            collision_local_shape := 0, remainder := ⟨0, 0, 0⟩,
            travel := ⟨2, 0, 0⟩, collision_safe_fraction := 1,
            collision_unsafe_fraction := 1 } :=
  C6_shapeless_or_spaceless_full_travel {} { rid := 1 }
    { rid := 2, mode := .kinematic } Transform3D.identityT ⟨1, 2, 3⟩
    (1 / 1000) [] false { bodies := [(5, {})] } 5 { motion := ⟨2, 0, 0⟩ } {}
    rfl rfl rfl

/-- Iteration bound of the slide loop: at most one move_and_collide call
per remaining iteration, and at most one appended collision per performed
call. -/
theorem slide_loop_bound (rm : RealFns) (srv : PhysicsServer)
    (config : CharacterMotionConfig) :
    ∀ (n : Nat) (body : PhysBody) (state : CharacterMotionState)
      (rem vel : Vector3) (acc : List KinematicCollision3D) (count : Nat)
      (out : SlideOutcome),
      slide_loop rm srv config n body state rem vel acc count = .ok out →
      out.sweep_tests ≤ count + n ∧
      out.collisions.length + count ≤ acc.length + out.sweep_tests
  | 0, body, state, rem, vel, acc, count, out, h => by
    unfold slide_loop at h
    injection h with h
    subst h
    dsimp only
    omega
  | n + 1, body, state, rem, vel, acc, count, out, h => by
    unfold slide_loop at h
    split at h
    · injection h with h
      subst h
      dsimp only
      omega
    · split at h
      · exact absurd h (by simp)
      · injection h with h
        subst h
        dsimp only
        omega
      · have ih := slide_loop_bound rm srv config n _ _ _ _ _ _ _ h
        simp only [List.length_append, List.length_cons, List.length_nil]
          at ih ⊢
        omega

/-- Near-zero motion short-circuits the slide loop immediately: no sweep
test runs and no collision is recorded. -/
theorem slide_loop_small_motion (rm : RealFns) (srv : PhysicsServer)
    (config : CharacterMotionConfig) (n : Nat) (body : PhysBody)
    (state : CharacterMotionState) (rem vel : Vector3)
    (acc : List KinematicCollision3D) (count : Nat)
    (hm : rem.length_squared < MIN_MOTION_THRESHOLD * MIN_MOTION_THRESHOLD) :
    slide_loop rm srv config n body state rem vel acc count =
      .ok ⟨acc, count, body, state⟩ := by
  cases n with
  | zero => rfl
  | succ n =>
    unfold slide_loop
    rw [if_pos hm]

/-- C7: for every finite motion and every iteration budget, the slide
solver performs at most max_slides move_and_collide sweep tests, returns a
collision list of length at most max_slides (the solver always terminates:
the loop is a total function of the budget), and a motion below the
minimum-motion threshold short-circuits immediately with an empty
collision list and zero sweep tests. -/
theorem C7_slide_solver_bounds (rm : RealFns) (srv : PhysicsServer)
    (body : PhysBody) (motion : Vector3) (state : CharacterMotionState)
    (config : CharacterMotionConfig) (max_slides : Nat) (out : SlideOutcome)
    (h : slide_solve rm srv body motion state config max_slides = .ok out) :
    out.sweep_tests ≤ max_slides ∧
    out.collisions.length ≤ max_slides ∧
    (motion.length_squared < MIN_MOTION_THRESHOLD * MIN_MOTION_THRESHOLD →
      out.collisions = [] ∧ out.sweep_tests = 0) := by
  unfold slide_solve at h
  have hb := slide_loop_bound rm srv config max_slides body state motion
    state.velocity [] 0 out h
  refine ⟨by omega, by simp at hb; omega, ?_⟩
  intro hm
  have hs := slide_loop_small_motion rm srv config max_slides body state
    motion state.velocity [] 0 hm
  rw [h] at hs
  injection hs with hs
  rw [hs]
  exact ⟨rfl, rfl⟩

/-- Any hit reported by the discrete sampling loop has its safe fraction
inside the unit interval: the backed-up fraction is (i - 1) / steps for a
sample index 1 ≤ i ≤ steps, or 0 for a hit at the start. -/
theorem sweep_scan_bounds (sa : ShapeType) (ta : Transform3D)
    (da : ShapeParams) (motion : Vector3) (sb : ShapeType) (tb : Transform3D)
    (db : ShapeParams) (steps : Nat) (hsteps : 1 ≤ steps) :
    ∀ (l : List Nat), (∀ i ∈ l, i ≤ steps) → ∀ (h : SweepHit),
      sweep_scan sa ta da motion sb tb db steps l = .ok (some h) →
      0 ≤ h.fraction ∧ h.fraction ≤ 1
  | [], _, h, heq => by simp [sweep_scan] at heq
  | i :: rest, hmem, h, heq => by
    unfold sweep_scan at heq
    dsimp only at heq
    cases hss : solve_static sa
        (ta.translated (motion * ((i : ℚ) / (steps : ℚ)))) da sb tb db with
    | error e =>
      rw [hss] at heq
      exact absurd heq (by simp)
    | ok r0 =>
      rw [hss] at heq
      cases r0 with
      | none =>
        exact sweep_scan_bounds sa ta da motion sb tb db steps hsteps rest
          (fun j hj => hmem j (List.mem_cons_of_mem i hj)) h heq
      | some cr =>
        dsimp only at heq
        by_cases hc : cr.collided = true
        · rw [if_pos hc] at heq
          injection heq with heq
          injection heq with heq
          subst heq
          dsimp only
          by_cases hi : i > 0
          · rw [if_pos hi]
            constructor
            · exact div_nonneg (Nat.cast_nonneg _) (Nat.cast_nonneg _)
            · have hs0 : (0 : ℚ) < (steps : ℚ) := by
                exact_mod_cast Nat.lt_of_lt_of_le Nat.zero_lt_one hsteps
              rw [div_le_one hs0]
              have hle : i ≤ steps := hmem i (List.mem_cons_self i rest)
              exact_mod_cast Nat.le_trans (Nat.sub_le i 1) hle
          · rw [if_neg hi]
            exact ⟨le_refl 0, by norm_num⟩
        · rw [if_neg hc] at heq
          exact sweep_scan_bounds sa ta da motion sb tb db steps hsteps rest
            (fun j hj => hmem j (List.mem_cons_of_mem i hj)) h heq

/-- Any hit reported by _sweep_test has its safe fraction in [0, 1]. -/
theorem sweep_test_bounds (sa : ShapeType) (ta : Transform3D)
    (da : ShapeParams) (motion : Vector3) (sb : ShapeType) (tb : Transform3D)
    (db : ShapeParams) (margin : ℚ) (h : SweepHit)
    (heq : sweep_test sa ta da motion sb tb db margin = .ok (some h)) :
    0 ≤ h.fraction ∧ h.fraction ≤ 1 := by
  unfold sweep_test at heq
  dsimp only at heq
  refine sweep_scan_bounds sa ta da motion sb tb db _ ?_ _ ?_ h heq
  · exact le_min (le_max_left 1 _) (by norm_num)
  · intro i hi
    have := List.mem_range.mp hi
    omega

/-- Accumulator invariant of the sweep loops of body_test_motion: whenever
a best hit is stored, its fraction lies in the unit interval. -/
def best_hit_ok (acc : ℚ × Option BestHit) : Prop :=
  ∀ b : BestHit, acc.2 = some b → 0 ≤ b.fraction ∧ b.fraction ≤ 1

set_option maxHeartbeats 2000000 in
/-- The innermost sweep loop preserves the best-hit invariant. -/
theorem sweep_other_scan_inv (storage : ShapeStorage) (my_type : ShapeType)
    (my_gt : Transform3D) (my_data : ShapeParams) (motion : Vector3)
    (margin : ℚ) (cand : Body3D) (my_idx : Nat) :
    ∀ (l : List (Nat × ShapeInfo)) (acc : ℚ × Option BestHit),
      best_hit_ok acc → ∀ acc2,
      sweep_other_scan storage my_type my_gt my_data motion margin cand
        my_idx l acc = .ok acc2 → best_hit_ok acc2
  | [], acc, hacc, acc2, heq => by
    unfold sweep_other_scan at heq
    injection heq with heq
    subst heq
    exact hacc
  | (j, osi) :: rest, acc, hacc, acc2, heq => by
    unfold sweep_other_scan at heq
    by_cases hd : osi.disabled = true
    · rw [if_pos hd] at heq
      exact sweep_other_scan_inv storage my_type my_gt my_data motion margin
        cand my_idx rest acc hacc acc2 heq
    · rw [if_neg hd] at heq
      cases hgs : storage.get_shape_data osi.shape with
      | none =>
        rw [hgs] at heq
        exact sweep_other_scan_inv storage my_type my_gt my_data motion margin
          cand my_idx rest acc hacc acc2 heq
      | some osd =>
        rw [hgs] at heq
        dsimp only at heq
        cases hst : sweep_test my_type my_gt my_data motion osd.type
            (cand.transform * osi.transform) osd.data margin with
        | error e =>
          rw [hst] at heq
          exact absurd heq (by simp)
        | ok r0 =>
          rw [hst] at heq
          cases r0 with
          | none =>
            exact sweep_other_scan_inv storage my_type my_gt my_data motion
              margin cand my_idx rest acc hacc acc2 heq
          | some hit =>
            refine sweep_other_scan_inv storage my_type my_gt my_data motion
              margin cand my_idx rest _ ?_ acc2 heq
            intro b hb
            by_cases hlt : hit.fraction < acc.1
            · rw [if_pos hlt] at hb
              injection hb with hb
              subst hb
              exact sweep_test_bounds my_type my_gt my_data motion osd.type
                (cand.transform * osi.transform) osd.data margin hit hst
            · rw [if_neg hlt] at hb
              exact hacc b hb

/-- The candidate sweep loop preserves the best-hit invariant. -/
theorem sweep_cand_scan_inv (storage : ShapeStorage) (my_type : ShapeType)
    (my_gt : Transform3D) (my_data : ShapeParams) (motion : Vector3)
    (margin : ℚ) (my_idx : Nat) :
    ∀ (l : List Body3D) (acc : ℚ × Option BestHit),
      best_hit_ok acc → ∀ acc2,
      sweep_cand_scan storage my_type my_gt my_data motion margin my_idx l
        acc = .ok acc2 → best_hit_ok acc2
  | [], acc, hacc, acc2, heq => by
    unfold sweep_cand_scan at heq
    injection heq with heq
    subst heq
    exact hacc
  | cand :: rest, acc, hacc, acc2, heq => by
    unfold sweep_cand_scan at heq
    cases hmid : sweep_other_scan storage my_type my_gt my_data motion margin
        cand my_idx cand.shapes.enum acc with
    | error e =>
      rw [hmid] at heq
      exact absurd heq (by simp)
    | ok accmid =>
      rw [hmid] at heq
      exact sweep_cand_scan_inv storage my_type my_gt my_data motion margin
        my_idx rest accmid
        (sweep_other_scan_inv storage my_type my_gt my_data motion margin cand
          my_idx cand.shapes.enum acc hacc accmid hmid) acc2 heq

/-- The own-shape sweep loop preserves the best-hit invariant. -/
theorem sweep_shape_scan_inv (storage : ShapeStorage)
    (from_transform : Transform3D) (motion : Vector3) (margin : ℚ)
    (candidates : List Body3D) :
    ∀ (l : List (Nat × ShapeInfo)) (acc : ℚ × Option BestHit),
      best_hit_ok acc → ∀ acc2,
      sweep_shape_scan storage from_transform motion margin candidates l acc =
        .ok acc2 → best_hit_ok acc2
  | [], acc, hacc, acc2, heq => by
    unfold sweep_shape_scan at heq
    injection heq with heq
    subst heq
    exact hacc
  | (i, si) :: rest, acc, hacc, acc2, heq => by
    unfold sweep_shape_scan at heq
    by_cases hd : si.disabled = true
    · rw [if_pos hd] at heq
      exact sweep_shape_scan_inv storage from_transform motion margin
        candidates rest acc hacc acc2 heq
    · rw [if_neg hd] at heq
      cases hgs : storage.get_shape_data si.shape with
      | none =>
        rw [hgs] at heq
        exact sweep_shape_scan_inv storage from_transform motion margin
          candidates rest acc hacc acc2 heq
      | some sd =>
        rw [hgs] at heq
        dsimp only at heq
        cases hmid : sweep_cand_scan storage sd.type
            (from_transform * si.transform) sd.data motion margin i candidates
            acc with
        | error e =>
          rw [hmid] at heq
          exact absurd heq (by simp)
        | ok accmid =>
          rw [hmid] at heq
          exact sweep_shape_scan_inv storage from_transform motion margin
            candidates rest accmid
            (sweep_cand_scan_inv storage sd.type
              (from_transform * si.transform) sd.data motion margin i
              candidates acc hacc accmid hmid) acc2 heq

/-- The sweep phase always reassembles the motion from travel and
remainder, and reports a safe fraction in the unit interval. -/
theorem motion_sweep_phase_inv (storage : ShapeStorage) (sp : Space3D)
    (body : Body3D) (fromT : Transform3D) (motion : Vector3) (margin : ℚ)
    (excl : List Nat) (r : MotionResult)
    (h : motion_sweep_phase storage sp body fromT motion margin excl = .ok r) :
    r.travel + r.remainder = motion ∧
    0 ≤ r.collision_safe_fraction ∧ r.collision_safe_fraction ≤ 1 := by
  unfold motion_sweep_phase at h
  dsimp only at h
  split at h
  · injection h with h
    subst h
    exact ⟨v3_add_zero motion, by norm_num, by norm_num⟩
  · split at h
    · exact absurd h (by simp)
    · rename_i w best hscan
      injection h with h
      subst h
      refine ⟨v3_add_sub_cancel (motion * best.fraction) motion, ?_⟩
      have hinv := sweep_shape_scan_inv storage fromT motion margin _
        body.shapes.enum (1, none) (fun b hb => by simp at hb) _ hscan
      exact hinv best rfl
    · injection h with h
      subst h
      exact ⟨v3_add_zero motion, by norm_num, by norm_num⟩

/-- C9: every result dictionary returned by Space3D.body_test_motion
satisfies travel + remainder = motion exactly (no-collision, best-hit and
recovery-as-collision branches alike), and its collision_safe_fraction
lies in [0, 1]. -/
theorem C9_travel_remainder_exact (storage : ShapeStorage) (sp : Space3D)
    (body : Body3D) (fromT : Transform3D) (motion : Vector3) (margin : ℚ)
    (excl : List Nat) (rcv : Bool) (r : MotionResult)
    (h : space_body_test_motion storage sp body fromT motion margin excl rcv =
      .ok r) :
    r.travel + r.remainder = motion ∧
    0 ≤ r.collision_safe_fraction ∧ r.collision_safe_fraction ≤ 1 := by
  unfold space_body_test_motion at h
  dsimp only at h
  split at h
  · injection h with h
    subst h
    exact ⟨v3_add_zero motion, by norm_num, by norm_num⟩
  · split at h
    · split at h
      · exact absurd h (by simp)
      · injection h with h
        subst h
        exact ⟨v3_zero_add motion, by norm_num, by norm_num⟩
      · exact motion_sweep_phase_inv storage sp body fromT motion margin excl
          r h
    · exact motion_sweep_phase_inv storage sp body fromT motion margin excl
        r h

section RatDecide

/- Batteries marks the rational field operations irreducible, which blocks
the elaborator-side evaluation done by decide (the kernel itself reduces
them fine).  Restore semireducibility locally for the theorems of this
section, which evaluate the embedding at concrete rational inputs. -/
attribute [local semireducible] Rat.add Rat.mul Rat.inv Rat.sub

set_option maxRecDepth 1000000 in
/-- C1 (code_bug evidence): two unit spheres with centers at distance 1
(so 0 < d < r1 + r2 = 2 strictly overlap), yet solve_static returns None.
The GJK loop only ever generates support points collinear with the
center-to-center axis for a sphere pair, the two-point simplex case then
produces a zero search direction from the parallel cross products, and the
next support point has zero dot product with it, which the termination
test supp.minkowski.dot(direction) <= 0 reads as no intersection.  The
spec requires collided = true with depth = r1 + r2 - d = 1 here. -/
theorem C1_sphere_sphere_gjk_returns_none :
    ((⟨0, 0, 0⟩ - ⟨1, 0, 0⟩ : Vector3).length_squared = 1 ∧
     (0 : ℚ) < 1 ∧ (1 : ℚ) < (1 + 1) * (1 + 1)) ∧
    solve_static .sphere ⟨Basis.identity, ⟨0, 0, 0⟩⟩ { radius := some 1 }
      .sphere ⟨Basis.identity, ⟨1, 0, 0⟩⟩ { radius := some 1 } = .ok none := by
  constructor
  · refine ⟨by decide, by norm_num, by norm_num⟩
  · decide

/-- C2 (code_bug evidence): a static body registered first and a
kinematic body registered second, with identical AABBs and mutually
passing layer/mask tests, produce no pair at all: the outer loop of
get_collision_pairs skips every pair whose first entry is static, not just
static-static pairs, contradicting the function's own docstring (all pairs
with overlapping AABBs and matching layer/mask). -/
theorem C2_static_first_pair_dropped :
    Broadphase3D.get_collision_pairs
      (Broadphase3D.add_body
        (Broadphase3D.add_body {} { rid := 1, mode := .staticMode }
          ⟨⟨0, 0, 0⟩, ⟨1, 1, 1⟩⟩)
        { rid := 2, mode := .kinematic } ⟨⟨0, 0, 0⟩, ⟨1, 1, 1⟩⟩) = [] ∧
    (⟨⟨0, 0, 0⟩, ⟨1, 1, 1⟩⟩ : AABB).intersects ⟨⟨0, 0, 0⟩, ⟨1, 1, 1⟩⟩ = true ∧
    (1 &&& 1 ≠ 0) ∧
    ¬(({ rid := 1, mode := .staticMode } : Body3D).is_static ∧
      ({ rid := 2, mode := .kinematic } : Body3D).is_static) := by
  decide

set_option maxRecDepth 1000000 in
/-- C3 (code_bug evidence): a capsule (shape A, radius 0.5, height 2, at
the origin) against a sphere (shape B, radius 0.5, centered at
(4/5, 0, 0)) collides with depth 1/5, but the returned normal (1, 0, 0)
satisfies normal . (center_A - center_B) < 0: it points from shape A
toward shape B, violating the documented convention that the narrowphase
normal always points from shape B toward shape A (as sphere_vs_sphere,
capsule_vs_capsule and capsule_vs_box do). -/
theorem C3_capsule_sphere_normal_points_to_b :
    solve_static .capsule ⟨Basis.identity, ⟨0, 0, 0⟩⟩
      { radius := some (1 / 2), height := some 2 }
      .sphere ⟨Basis.identity, ⟨4 / 5, 0, 0⟩⟩ { radius := some (1 / 2) } =
      .ok (some ⟨true, ⟨1, 0, 0⟩, ⟨0, 0, 0⟩, 1 / 5, ⟨-1 / 2, 0, 0⟩,
                 ⟨3 / 10, 0, 0⟩⟩) ∧
    (⟨1, 0, 0⟩ : Vector3).dot ((⟨0, 0, 0⟩ : Vector3) - ⟨4 / 5, 0, 0⟩) < 0 := by
  constructor
  · decide
  · decide

set_option maxRecDepth 1000000 in
/-- C4 counterexample: two identical capsules at the same transform
collide (depth = the radius sum), and by symmetry of the arguments the
swapped call returns the very same result, whose normal (-1, 0, 0) is not
the negation of the original normal (-1, 0, 0); the dispatcher-symmetry
claim fails on this pair. -/
theorem C4_counterexample_identical_capsules :
    solve_static .capsule ⟨Basis.identity, ⟨0, 0, 0⟩⟩
        { radius := some (1 / 2), height := some 2 }
      .capsule ⟨Basis.identity, ⟨0, 0, 0⟩⟩
        { radius := some (1 / 2), height := some 2 } =
      .ok (some ⟨true, ⟨-1, 0, 0⟩, ⟨0, -1 / 2, 0⟩, 1, ⟨1 / 2, -1 / 2, 0⟩,
                 ⟨-1 / 2, -1 / 2, 0⟩⟩) ∧
    ((⟨-1, 0, 0⟩ : Vector3) ≠ -(⟨-1, 0, 0⟩ : Vector3)) := by
  constructor
  · decide
  · decide

/-- C4 (amended): dispatcher symmetry does hold for the three explicitly
mirrored dispatch entries.  For every pair of transforms and parameter
bags, solve_static on (sphere, capsule), (box, capsule) and
(plane, capsule) equals the mirrored capsule-first call with the normal
negated (hence equal depth and exactly antiparallel normal whenever a
result exists). -/
theorem C4_mirrored_entries_antisymmetric (tA : Transform3D)
    (dA : ShapeParams) (tB : Transform3D) (dB : ShapeParams) :
    solve_static .sphere tA dA .capsule tB dB =
      negate_normal_result (solve_static .capsule tB dB .sphere tA dA) ∧
    solve_static .box tA dA .capsule tB dB =
      negate_normal_result (solve_static .capsule tB dB .box tA dA) ∧
    solve_static .plane tA dA .capsule tB dB =
      negate_normal_result (solve_static .capsule tB dB .plane tA dA) := by
  refine ⟨rfl, rfl, rfl⟩

/-- C5 (code_bug evidence): shape_get_type reads self._shapes[shape].type
with no membership guard, so an unknown handle raises KeyError instead of
returning a default value; every sibling operation (shape_set_data,
shape_get_data, _free_shape) checks membership first.  Here the storage
holds exactly one shape (rid 1) and rid 42 is unknown. -/
theorem C5_shape_get_type_raises_on_unknown :
    (ShapeStorage.shape_create {} .sphere).2.shape_get_type 42 =
      .error .keyError ∧
    ((ShapeStorage.shape_create {} .sphere).2.shape_get_data 42 = none ∧
     (ShapeStorage.shape_create {} .sphere).2.shape_set_data 42 {} =
       (ShapeStorage.shape_create {} .sphere).2 ∧
     (ShapeStorage.shape_create {} .sphere).2.free_shape 42 =
       (ShapeStorage.shape_create {} .sphere).2) := by
  decide

/-- C9 witness: a concrete query (kinematic body with one sphere shape in
an otherwise empty space) returning full travel with safe fraction 1. -/
theorem C9_travel_remainder_exact_witness :
    ((⟨4, 0, 0⟩ : Vector3) + ⟨0, 0, 0⟩ = (⟨4, 0, 0⟩ : Vector3)) ∧
    (0 : ℚ) ≤ 1 ∧ (1 : ℚ) ≤ 1 := by
  have h := C9_travel_remainder_exact
    (ShapeStorage.shape_set_data (ShapeStorage.shape_create {} .sphere).2 1
      { radius := some (1 / 2) })
    { rid := 1 }
    { rid := 2, mode := .kinematic,
      shapes := [{ shape := 1, transform := Transform3D.identityT }] }
    Transform3D.identityT ⟨4, 0, 0⟩ (1 / 1000) [] false
    { collided := false, collision_point := ⟨0, 0, 0⟩,
      collision_normal := ⟨0, 0, 0⟩, collision_depth := 0,
      collider := none, collider_rid := none, collider_shape := 0,
      collision_local_shape := 0, remainder := ⟨0, 0, 0⟩,
      travel := ⟨4, 0, 0⟩, collision_safe_fraction := 1,
      collision_unsafe_fraction := 1 } (by decide)
  exact ⟨h.1, h.2⟩

/-- C7 witness: a shapeless scene body moved by (1, 0, 0) with a budget of
4 performs exactly one unobstructed sweep and collects no collision. -/
theorem C7_slide_solver_bounds_witness :
    (slide_solve ⟨fun _ => 0, 0⟩ {} { rid := 1 } ⟨1, 0, 0⟩ {} {} 4 =
      .ok ⟨[], 1, { rid := 1 }, {}⟩) ∧
    (1 ≤ 4 ∧ ([] : List KinematicCollision3D).length ≤ 4) := by
  constructor
  · decide
  · have hc := C7_slide_solver_bounds ⟨fun _ => 0, 0⟩ {} { rid := 1 }
      ⟨1, 0, 0⟩ {} {} 4 ⟨[], 1, { rid := 1 }, {}⟩ (by decide)
    exact ⟨hc.1, hc.2.1⟩

end RatDecide

end NightWalk
